import Mathlib

/-!
A shallow embedding of `lwftp.c`.

The FTP upload client of `lwftp.c` runs on the raw (callback) TCP interface.
Every function of the file is embedded as a function on an explicit session
value and an explicit log of the calls made to the two collaborators (the TCP
stack and the data source).  What a collaborator answers is read from an
environment `Env`, and may depend on everything that happened before.
-/

namespace Lwftp

/-! ## Data model -/

/-- Modelled from the spec: the state enumeration of the missing header
`lwftp.h`, in the order the spec lists it.  `data_state` uses the same type. -/
inductive lwftp_state_t
  | LWFTP_CLOSED
  | LWFTP_CONNECTED
  | LWFTP_USER_SENT
  | LWFTP_PASS_SENT
  | LWFTP_TYPE_SENT
  | LWFTP_PASV_SENT
  | LWFTP_STOR_SENT
  | LWFTP_STORING
  | LWFTP_QUIT
  | LWFTP_QUIT_SENT
  deriving DecidableEq, Repr

/-- Status codes of the TCP stack that the file names, and any other one. -/
inductive err_t
  | ERR_OK
  | ERR_MEM
  | ERR_BUF
  | ERR_ABRT
  | ERR_ARG
  | ERR_OTHER (code : Nat)
  deriving DecidableEq, Repr

/-- A connection handle (`struct tcp_pcb *` that is not null). -/
abbrev tcp_pcb := Nat

/-- An IPv4 address as its four octets, most significant first. -/
structure ip_addr_t where
  addr1 : Nat
  addr2 : Nat
  addr3 : Nat
  addr4 : Nat
  deriving DecidableEq, Repr

/-- An incoming buffer.  `payload` is the text that the string functions see:
the characters before the terminating NUL. -/
structure pbuf where
  payload : List Char
  tot_len : Nat
  deriving DecidableEq, Repr

/-- Modelled from the spec: the session record of the missing header
`lwftp.h`, with the fields that `lwftp.c` reads and writes.  A null pointer is
`none`; `data_source` holds the identity of the collaborator function. -/
structure lwftp_session_t where
  server_ip : ip_addr_t
  server_port : Nat
  remote_path : Option (List Char)
  data_source : Option Nat
  control_state : lwftp_state_t
  data_state : lwftp_state_t
  control_pcb : Option tcp_pcb
  data_pcb : Option tcp_pcb
  deriving DecidableEq, Repr

/-- The callbacks that the file registers with the TCP stack. -/
inductive Callback
  | lwftp_control_err
  | lwftp_control_recv
  | lwftp_control_sent
  | lwftp_control_connected
  | lwftp_data_err
  | lwftp_data_recv
  | lwftp_data_sent
  | lwftp_data_connected
  deriving DecidableEq, Repr

/-- One call made to a collaborator, with its arguments and its answer. -/
inductive Event
  | tcp_new (res : Option tcp_pcb)
  | tcp_arg (pcb : Option tcp_pcb)
  | tcp_err (pcb : Option tcp_pcb) (cb : Option Callback)
  | tcp_recv (pcb : Option tcp_pcb) (cb : Option Callback)
  | tcp_sent (pcb : Option tcp_pcb) (cb : Option Callback)
  | tcp_connect (pcb : Option tcp_pcb) (ip : ip_addr_t) (port : Nat)
      (cb : Callback) (res : err_t)
  | tcp_write (pcb : Option tcp_pcb) (data : List Char) (len : Nat) (res : err_t)
  | tcp_close (pcb : Option tcp_pcb) (res : err_t)
  | tcp_recved (pcb : Option tcp_pcb) (len : Nat)
  | data_source_notify (f : Nat) (len : Nat)
  | data_source_produce (f : Nat) (maxlen : Nat) (data : List Char) (len : Nat)
  deriving DecidableEq, Repr

/-- What the collaborators answer, as a function of the calls made so far. -/
structure Env where
  tcp_new : List Event → Option tcp_pcb
  tcp_connect : List Event → Option tcp_pcb → ip_addr_t → Nat → err_t
  tcp_write : List Event → Option tcp_pcb → List Char → Nat → err_t
  tcp_close : List Event → Option tcp_pcb → err_t
  pcb_mss : List Event → tcp_pcb → Nat
  data_source : List Event → Nat → Nat → List Char × Nat

/-! ## C library string functions -/

/-- Largest `unsigned long`, on a target where it has 32 bits. -/
def ULONG_MAX : Nat := 4294967295

/-- White space of the C locale. -/
def isspace (c : Char) : Bool :=
  c.toNat = 32 || (9 ≤ c.toNat && c.toNat ≤ 13)

/-- Decimal digit. -/
def isdigit (c : Char) : Bool :=
  48 ≤ c.toNat && c.toNat ≤ 57

/-- Value of a decimal digit. -/
def digitVal (c : Char) : Nat := c.toNat - 48

/-- The digit loop of `strtoul`: the value read so far and the rest. -/
def strtoul_digits : List Char → Nat → Nat × List Char
  | [], acc => (acc, [])
  | c :: cs, acc =>
    if isdigit c then strtoul_digits cs (acc * 10 + digitVal c) else (acc, c :: cs)

/-- Leading white space of `strtoul` skipped. -/
def skip_space : List Char → List Char
  | [] => []
  | c :: cs => if isspace c then skip_space cs else c :: cs

/-- C `strtoul(nptr, &endptr, 10)`: the value and the text `endptr` points at.
White space is skipped, one sign is accepted, a value that does not fit is
`ULONG_MAX`, a minus sign negates modulo `ULONG_MAX + 1`, and when no digit
follows the value is 0 and `endptr` is `nptr`. -/
def strtoul (nptr : List Char) : Nat × List Char :=
  let s1 := skip_space nptr
  let neg : Bool := s1.head? = some '-'
  let s2 := if s1.head? = some '-' ∨ s1.head? = some '+' then s1.tail else s1
  match s2 with
  | [] => (0, nptr)
  | c :: _ =>
    if isdigit c then
      let r := strtoul_digits s2 0
      let v := if ULONG_MAX < r.1 then ULONG_MAX
               else if neg then (ULONG_MAX + 1 - r.1) % (ULONG_MAX + 1) else r.1
      (v, r.2)
    else (0, nptr)

/-- C `strchr(s, c)`: the text from the first `c` on, or null. -/
def strchr : List Char → Char → Option (List Char)
  | [], _ => none
  | x :: xs, c => if x = c then some (x :: xs) else strchr xs c

/-! ## The functions of `lwftp.c` -/

/-- Close control or data pcb. -/
def lwftp_pcb_close (E : Env) (tpcb : Option tcp_pcb) (tr : List Event) :
    err_t × List Event :=
  let tr1 := tr ++ [Event.tcp_err tpcb none, Event.tcp_recv tpcb none,
    Event.tcp_sent tpcb none]
  let error := E.tcp_close tr1 tpcb
  (err_t.ERR_OK, tr1 ++ [Event.tcp_close tpcb error])

/-- Send data: `none` is the read of `s->data_pcb->mss` through a null
`data_pcb`. -/
def lwftp_send_next_data (E : Env) (s : lwftp_session_t) (tr : List Event) :
    Option (err_t × lwftp_session_t × List Event) :=
  let r : Option (Nat × List Event) :=
    match s.data_source with
    | none => some (0, tr)
    | some f =>
      match s.data_pcb with
      | none => none
      | some d =>
        let mss := E.pcb_mss tr d
        let chunk := E.data_source tr f mss
        let tr1 := tr ++ [Event.data_source_produce f mss chunk.1 chunk.2]
        if chunk.2 ≠ 0 then
          let error := E.tcp_write tr1 (some d) chunk.1 chunk.2
          some (chunk.2, tr1 ++ [Event.tcp_write (some d) chunk.1 chunk.2 error])
        else some (chunk.2, tr1)
  match r with
  | none => none
  | some (len, tr2) =>
    if len = 0 then
      some (err_t.ERR_OK, { s with data_pcb := none },
        (lwftp_pcb_close E s.data_pcb tr2).2)
    else some (err_t.ERR_OK, s, tr2)

/-- Handle data connection incoming data. -/
def lwftp_data_recv (s : lwftp_session_t) (_tpcb : Option tcp_pcb)
    (_p : Option pbuf) (_err : err_t) : err_t × lwftp_session_t :=
  (err_t.ERR_ABRT, s)

/-- Handle data connection acknowledge of sent data. -/
def lwftp_data_sent (E : Env) (s : lwftp_session_t) (tr : List Event)
    (_tpcb : Option tcp_pcb) (len : Nat) :
    Option (err_t × lwftp_session_t × List Event) :=
  match s.data_source with
  | some f => lwftp_send_next_data E s (tr ++ [Event.data_source_notify f len])
  | none => lwftp_send_next_data E s tr

/-- Handle data connection error. -/
def lwftp_data_err (s : lwftp_session_t) (_err : err_t) : lwftp_session_t := s

/-- Process newly connected data PCB. -/
def lwftp_data_connected (s : lwftp_session_t) (_tpcb : Option tcp_pcb)
    (err : err_t) : err_t × lwftp_session_t :=
  if err = err_t.ERR_OK then
    (err, { s with data_state := lwftp_state_t.LWFTP_CONNECTED })
  else (err, s)

/-- Modelled from the spec: the octet accessors `ip4_addr1` .. `ip4_addr4` of
the missing TCP stack headers name one byte of the address, so a value stored
through them is kept modulo 256. -/
def ip4_octet (v : Nat) : Nat := v % 256

/-- The six `strtoul(ptr+1,&ptr,10)` calls of `lwftp_data_open`, started with
`ptr` at the opening bracket: the six values read and the text `ptr` points at
afterwards.  This is what the C code computes as long as every step `ptr+1` is
taken with `ptr` on a character of the text (`pasv_reads_inside`).  A step
taken with `ptr` on the terminating NUL makes the C code read the memory that
follows the text, which the text does not determine; here such a step reads
the end again. -/
def pasv_fields (ptr0 : List Char) : List Nat × List Char :=
  let r1 := strtoul ptr0.tail
  let r2 := strtoul r1.2.tail
  let r3 := strtoul r2.2.tail
  let r4 := strtoul r3.2.tail
  let r5 := strtoul r4.2.tail
  let r6 := strtoul r5.2.tail
  ([r1.1, r2.1, r3.1, r4.1, r5.1, r6.1], r6.2)

/-- No read of `lwftp_data_open` leaves the text: each of the six steps
`ptr+1` is taken with `ptr` on a character of the text, not on its terminating
NUL.  The first step is taken on the opening bracket, the others where the
first five reads stop. -/
def pasv_reads_inside (ptr0 : List Char) : Bool :=
  let r1 := strtoul ptr0.tail
  let r2 := strtoul r1.2.tail
  let r3 := strtoul r2.2.tail
  let r4 := strtoul r3.2.tail
  let r5 := strtoul r4.2.tail
  !ptr0.isEmpty && !r1.2.isEmpty && !r2.2.isEmpty && !r3.2.isEmpty && !r4.2.isEmpty &&
    !r5.2.isEmpty

/-- The `u16 data_port` of `lwftp_data_open`, from the values of the fifth and
sixth field: `data_port = h << 8; data_port |= l & 255;`. -/
def pasv_port (h l : Nat) : Nat :=
  ((((h <<< 8) % (ULONG_MAX + 1)) % 65536) ||| (l &&& 255)) % 65536

/-- The parse of `lwftp_data_open`: the endpoint, or `ERR_BUF`. -/
def pasv_parse (payload : List Char) : Except err_t (ip_addr_t × Nat) :=
  match strchr payload '(' with
  | none => Except.error err_t.ERR_BUF
  | some ptr0 =>
    let f := pasv_fields ptr0
    if f.2.head? ≠ some ')' then Except.error err_t.ERR_BUF
    else Except.ok
      ({ addr1 := ip4_octet (f.1.getD 0 0), addr2 := ip4_octet (f.1.getD 1 0),
         addr3 := ip4_octet (f.1.getD 2 0), addr4 := ip4_octet (f.1.getD 3 0) },
       pasv_port (f.1.getD 4 0) (f.1.getD 5 0))

/-- Open data connection for passive transfer. -/
def lwftp_data_open (E : Env) (s : lwftp_session_t) (tr : List Event) (p : pbuf) :
    err_t × lwftp_session_t × List Event :=
  match pasv_parse p.payload with
  | Except.error e => (e, s, tr)
  | Except.ok (data_server, data_port) =>
    let tr1 := tr ++ [Event.tcp_arg s.data_pcb,
      Event.tcp_err s.data_pcb (some Callback.lwftp_data_err),
      Event.tcp_recv s.data_pcb (some Callback.lwftp_data_recv),
      Event.tcp_sent s.data_pcb (some Callback.lwftp_data_sent)]
    let error := E.tcp_connect tr1 s.data_pcb data_server data_port
    (error, s, tr1 ++ [Event.tcp_connect s.data_pcb data_server data_port
      Callback.lwftp_data_connected error])

/-- Send a message to control connection. -/
def lwftp_send_msg (E : Env) (s : lwftp_session_t) (tr : List Event)
    (msg : List Char) (len : Nat) : err_t × List Event :=
  let error := E.tcp_write tr s.control_pcb msg len
  (error, tr ++ [Event.tcp_write s.control_pcb msg len error])

/-- The `PTRNLEN` form of `lwftp_send_msg`: a literal and its length. -/
def lwftp_send_lit (E : Env) (s : lwftp_session_t) (tr : List Event)
    (msg : String) : List Event :=
  (lwftp_send_msg E s tr msg.toList msg.toList.length).2

/-- Close control connection. -/
def lwftp_control_close (E : Env) (s : lwftp_session_t) (tr : List Event) :
    lwftp_session_t × List Event :=
  let tr1 := match s.data_pcb with
    | some d => (lwftp_pcb_close E (some d) tr).2
    | none => tr
  let tr2 := match s.control_pcb with
    | some c => (lwftp_pcb_close E (some c) tr1).2
    | none => tr1
  ({ s with data_pcb := none, control_pcb := none,
            control_state := lwftp_state_t.LWFTP_CLOSED }, tr2)

/-- The `uint response` of `lwftp_control_process`: 0 without a buffer, else
`strtoul(p->payload, NULL, 10)` kept in 32 bits. -/
def response_code (p : Option pbuf) : Nat :=
  match p with
  | some pb => (strtoul pb.payload).1 % 4294967296
  | none => 0

/-- Main client state machine.  `none` is a null pointer read: the data
source asked for a chunk with no `data_pcb`, or `strlen` of a null
`remote_path`. -/
def lwftp_control_process (E : Env) (s : lwftp_session_t) (tr : List Event)
    (_tpcb : Option tcp_pcb) (p : Option pbuf) :
    Option (lwftp_session_t × List Event) :=
  let response : Nat := response_code p
  let r : Option (lwftp_session_t × List Event) :=
    match s.control_state with
    | lwftp_state_t.LWFTP_CONNECTED =>
      if 0 < response then
        if response = 220 then
          some ({ s with control_state := lwftp_state_t.LWFTP_USER_SENT },
            lwftp_send_lit E s tr "USER anonymous\n")
        else some ({ s with control_state := lwftp_state_t.LWFTP_QUIT }, tr)
      else some (s, tr)
    | lwftp_state_t.LWFTP_USER_SENT =>
      if 0 < response then
        if response = 331 then
          some ({ s with control_state := lwftp_state_t.LWFTP_PASS_SENT },
            lwftp_send_lit E s tr "PASS none@nowhere.net\n")
        else some ({ s with control_state := lwftp_state_t.LWFTP_QUIT }, tr)
      else some (s, tr)
    | lwftp_state_t.LWFTP_PASS_SENT =>
      if 0 < response then
        if response = 230 then
          some ({ s with control_state := lwftp_state_t.LWFTP_TYPE_SENT },
            lwftp_send_lit E s tr "TYPE I\n")
        else some ({ s with control_state := lwftp_state_t.LWFTP_QUIT }, tr)
      else some (s, tr)
    | lwftp_state_t.LWFTP_TYPE_SENT =>
      if 0 < response then
        if response = 200 then
          some ({ s with control_state := lwftp_state_t.LWFTP_PASV_SENT },
            lwftp_send_lit E s tr "PASV\n")
        else some ({ s with control_state := lwftp_state_t.LWFTP_QUIT }, tr)
      else some (s, tr)
    | lwftp_state_t.LWFTP_PASV_SENT =>
      if 0 < response then
        if response = 227 then
          match p, s.remote_path with
          | some pb, some path =>
            let o := lwftp_data_open E s tr pb
            let t1 := lwftp_send_lit E o.2.1 o.2.2 "STOR "
            let t2 := (lwftp_send_msg E o.2.1 t1 path path.length).2
            let t3 := lwftp_send_lit E o.2.1 t2 "\n"
            some ({ o.2.1 with control_state := lwftp_state_t.LWFTP_STOR_SENT }, t3)
          | _, _ => none
        else some ({ s with control_state := lwftp_state_t.LWFTP_QUIT }, tr)
      else some (s, tr)
    | lwftp_state_t.LWFTP_STOR_SENT =>
      if 0 < response then
        if response = 150 then
          match lwftp_data_sent E
              { s with control_state := lwftp_state_t.LWFTP_STORING } tr none 0 with
          | some o => some (o.2.1, o.2.2)
          | none => none
        else some ({ s with control_state := lwftp_state_t.LWFTP_QUIT }, tr)
      else some (s, tr)
    | lwftp_state_t.LWFTP_STORING =>
      if 0 < response then
        some ({ s with control_state := lwftp_state_t.LWFTP_QUIT }, tr)
      else some (s, tr)
    | lwftp_state_t.LWFTP_QUIT_SENT =>
      if 0 < response then some (lwftp_control_close E s tr)
      else some (s, tr)
    | _ => some (s, tr)
  match r with
  | none => none
  | some (s1, t1) =>
    if s1.control_state = lwftp_state_t.LWFTP_QUIT then
      some ({ s1 with control_state := lwftp_state_t.LWFTP_QUIT_SENT },
        lwftp_send_lit E s1 t1 "QUIT\n")
    else some (s1, t1)

/-- Handle control connection incoming data. -/
def lwftp_control_recv (E : Env) (s : lwftp_session_t) (tr : List Event)
    (tpcb : Option tcp_pcb) (p : Option pbuf) (err : err_t) :
    Option (err_t × lwftp_session_t × List Event) :=
  if err = err_t.ERR_OK then
    match p with
    | some pb =>
      match lwftp_control_process E s (tr ++ [Event.tcp_recved tpcb pb.tot_len])
          tpcb (some pb) with
      | some o => some (err, o.1, o.2)
      | none => none
    | none =>
      let o := lwftp_control_close E s tr
      some (err, o.1, o.2)
  else
    let o := lwftp_control_close E s tr
    some (err, o.1, o.2)

/-- Handle control connection acknowledge of sent data. -/
def lwftp_control_sent (s : lwftp_session_t) (_tpcb : Option tcp_pcb)
    (_len : Nat) : err_t × lwftp_session_t :=
  (err_t.ERR_OK, s)

/-- Handle control connection error. -/
def lwftp_control_err (s : lwftp_session_t) (_err : err_t) : lwftp_session_t := s

/-- Process newly connected control PCB. -/
def lwftp_control_connected (s : lwftp_session_t) (_tpcb : Option tcp_pcb)
    (err : err_t) : err_t × lwftp_session_t :=
  if err = err_t.ERR_OK then
    (err, { s with control_state := lwftp_state_t.LWFTP_CONNECTED })
  else (err, s)

/-- Store data to a remote file. -/
def lwftp_store (E : Env) (s : lwftp_session_t) (tr : List Event) :
    err_t × lwftp_session_t × List Event :=
  if s.control_state ≠ lwftp_state_t.LWFTP_CLOSED ∨ s.remote_path = none ∨
      s.control_pcb ≠ none ∨ s.data_pcb ≠ none then
    (err_t.ERR_ARG, s, tr)
  else
    let c := E.tcp_new tr
    let tr1 := tr ++ [Event.tcp_new c]
    let s1 := { s with control_pcb := c }
    match c with
    | none => (err_t.ERR_MEM, s1, tr1)
    | some _ =>
      let d := E.tcp_new tr1
      let tr2 := tr1 ++ [Event.tcp_new d]
      let s2 := { s1 with data_pcb := d }
      match d with
      | none =>
        let o := lwftp_control_close E s2 tr2
        (err_t.ERR_MEM, o.1, o.2)
      | some _ =>
        let tr3 := tr2 ++ [Event.tcp_arg c,
          Event.tcp_err c (some Callback.lwftp_control_err),
          Event.tcp_recv c (some Callback.lwftp_control_recv),
          Event.tcp_sent c (some Callback.lwftp_control_sent)]
        let error := E.tcp_connect tr3 c s2.server_ip s2.server_port
        let tr4 := tr3 ++ [Event.tcp_connect c s2.server_ip s2.server_port
          Callback.lwftp_control_connected error]
        if error = err_t.ERR_OK then (error, s2, tr4)
        else
          let o := lwftp_control_close E s2 tr4
          (error, o.1, o.2)

/-- The reply code that the transition table of the spec expects in each
state that awaits a reply before the transfer. -/
def expected_reply : lwftp_state_t → Option Nat
  | lwftp_state_t.LWFTP_CONNECTED => some 220
  | lwftp_state_t.LWFTP_USER_SENT => some 331
  | lwftp_state_t.LWFTP_PASS_SENT => some 230
  | lwftp_state_t.LWFTP_TYPE_SENT => some 200
  | lwftp_state_t.LWFTP_PASV_SENT => some 227
  | lwftp_state_t.LWFTP_STOR_SENT => some 150
  | _ => none

/-- The rows of the transition table of the spec that answer the expected
reply with one command: the expected code, the command and the next state. -/
def command_row : lwftp_state_t → Option (Nat × String × lwftp_state_t)
  | lwftp_state_t.LWFTP_CONNECTED =>
    some (220, "USER anonymous\n", lwftp_state_t.LWFTP_USER_SENT)
  | lwftp_state_t.LWFTP_USER_SENT =>
    some (331, "PASS none@nowhere.net\n", lwftp_state_t.LWFTP_PASS_SENT)
  | lwftp_state_t.LWFTP_PASS_SENT =>
    some (230, "TYPE I\n", lwftp_state_t.LWFTP_TYPE_SENT)
  | lwftp_state_t.LWFTP_TYPE_SENT =>
    some (200, "PASV\n", lwftp_state_t.LWFTP_PASV_SENT)
  | _ => none

/-- The number that a run of decimal digits writes. -/
def decimal_value (ds : List Char) : Nat :=
  ds.foldl (fun a c => a * 10 + digitVal c) 0

/-- The leading run of decimal digits of a text. -/
def digit_run (l : List Char) : List Char := l.takeWhile isdigit

/-- A decimal field of a PASV reply: a run of digits that is not empty. -/
def decimal_field (f : List Char) : Bool := !f.isEmpty && f.all isdigit

/-- The text of a PASV sextet up to the end of its sixth field: an opening
bracket and six fields with single commas between them. -/
def sextet_fields (fa fb fc fd fh fl : List Char) : List Char :=
  '(' :: (fa ++ ',' :: (fb ++ ',' :: (fc ++ ',' :: (fd ++ ',' :: (fh ++ ',' :: fl)))))

/-- The text of a PASV sextet: six fields between brackets, with single
commas between them. -/
def sextet (fa fb fc fd fh fl : List Char) : List Char :=
  sextet_fields fa fb fc fd fh fl ++ [')']

/-- The four registrations and the connect that `lwftp_data_open` issues on a
handle for an endpoint, with the answer of the connect. -/
def data_open_calls (h : Option tcp_pcb) (ip : ip_addr_t) (port : Nat) (res : err_t) :
    List Event :=
  [Event.tcp_arg h, Event.tcp_err h (some Callback.lwftp_data_err),
   Event.tcp_recv h (some Callback.lwftp_data_recv),
   Event.tcp_sent h (some Callback.lwftp_data_sent),
   Event.tcp_connect h ip port Callback.lwftp_data_connected res]

/-! ## Reading the log -/

/-- The bytes submitted with `tcp_write` on a handle, in order. -/
def written (h : Option tcp_pcb) : List Event → List Char
  | [] => []
  | Event.tcp_write pcb data len _ :: es =>
    if pcb = h then data.take len ++ written h es else written h es
  | _ :: es => written h es

/-- The connects issued, in order: handle, address, port and callback. -/
def connects : List Event → List (Option tcp_pcb × ip_addr_t × Nat × Callback)
  | [] => []
  | Event.tcp_connect pcb ip port cb _ :: es => (pcb, ip, port, cb) :: connects es
  | _ :: es => connects es

/-- The handles on which `tcp_close` was issued, in order. -/
def closes : List Event → List (Option tcp_pcb)
  | [] => []
  | Event.tcp_close pcb _ :: es => pcb :: closes es
  | _ :: es => closes es

/-- The handles that `tcp_new` gave out, in order. -/
def allocated : List Event → List tcp_pcb
  | [] => []
  | Event.tcp_new (some pcb) :: es => pcb :: allocated es
  | _ :: es => allocated es

/-- The callback registrations (`tcp_arg`, `tcp_err`, `tcp_recv`, `tcp_sent`)
in a log. -/
def registrations : List Event → List Event
  | [] => []
  | Event.tcp_arg pcb :: es => Event.tcp_arg pcb :: registrations es
  | Event.tcp_err pcb cb :: es => Event.tcp_err pcb cb :: registrations es
  | Event.tcp_recv pcb cb :: es => Event.tcp_recv pcb cb :: registrations es
  | Event.tcp_sent pcb cb :: es => Event.tcp_sent pcb cb :: registrations es
  | _ :: es => registrations es

/-- Replies delivered one after the other on the control connection, each
through `lwftp_control_recv` with status `ERR_OK`: the control state after
each delivery, the final session and the final log. -/
def deliver (E : Env) : lwftp_session_t → List Event → List pbuf →
    Option (List lwftp_state_t × lwftp_session_t × List Event)
  | s, tr, [] => some ([], s, tr)
  | s, tr, p :: ps =>
    match lwftp_control_recv E s tr s.control_pcb (some p) err_t.ERR_OK with
    | none => none
    | some o =>
      match deliver E o.2.1 o.2.2 ps with
      | none => none
      | some r => some (o.2.1.control_state :: r.1, r.2.1, r.2.2)

/-- An environment for examples: handles are numbered by the length of the
log, every call succeeds, the segment size is 536 and the data source is at
its end. -/
def quietEnv : Env where
  tcp_new tr := some tr.length
  tcp_connect _ _ _ _ := err_t.ERR_OK
  tcp_write _ _ _ _ := err_t.ERR_OK
  tcp_close _ _ := err_t.ERR_OK
  pcb_mss _ _ := 536
  data_source _ _ _ := ([], 0)

/-- An environment for examples: only the first allocation succeeds (it gives
handle 1), every other call succeeds. -/
def scarceEnv : Env where
  tcp_new tr := if tr = [] then some 1 else none
  tcp_connect _ _ _ _ := err_t.ERR_OK
  tcp_write _ _ _ _ := err_t.ERR_OK
  tcp_close _ _ := err_t.ERR_OK
  pcb_mss _ _ := 536
  data_source _ _ _ := ([], 0)

/-- A session as the caller prepares it: closed, no handle, a path set. -/
def freshSession : lwftp_session_t where
  server_ip := { addr1 := 192, addr2 := 168, addr3 := 0, addr4 := 1 }
  server_port := 21
  remote_path := some "up.bin".toList
  data_source := some 7
  control_state := lwftp_state_t.LWFTP_CLOSED
  data_state := lwftp_state_t.LWFTP_CLOSED
  control_pcb := none
  data_pcb := none

/-- The lengths of the chunks submitted with `tcp_write` on a handle, in
order. -/
def chunks (h : Option tcp_pcb) : List Event → List Nat
  | [] => []
  | Event.tcp_write pcb _ len _ :: es =>
    if pcb = h then len :: chunks h es else chunks h es
  | _ :: es => chunks h es

/-- The number of chunks, given their lengths in order of submission, that
are not wholly acknowledged once `acked` bytes are acknowledged. -/
def outstanding : List Nat → Nat → Nat
  | [], _ => 0
  | c :: cs, acked => if c ≤ acked then outstanding cs (acked - c) else 1 + cs.length

/-- Send-acknowledgement events delivered one after the other on the data
connection, each through `lwftp_data_sent` with its acknowledged byte
count. -/
def acknowledge (E : Env) : lwftp_session_t → List Event → List Nat →
    Option (lwftp_session_t × List Event)
  | s, tr, [] => some (s, tr)
  | s, tr, a :: as =>
    match lwftp_data_sent E s tr s.data_pcb a with
    | none => none
    | some o => acknowledge E o.2.1 o.2.2 as

/-- The position of a control state in the order of the spec. -/
def state_rank : lwftp_state_t → Nat
  | lwftp_state_t.LWFTP_CLOSED => 0
  | lwftp_state_t.LWFTP_CONNECTED => 1
  | lwftp_state_t.LWFTP_USER_SENT => 2
  | lwftp_state_t.LWFTP_PASS_SENT => 3
  | lwftp_state_t.LWFTP_TYPE_SENT => 4
  | lwftp_state_t.LWFTP_PASV_SENT => 5
  | lwftp_state_t.LWFTP_STOR_SENT => 6
  | lwftp_state_t.LWFTP_STORING => 7
  | lwftp_state_t.LWFTP_QUIT => 8
  | lwftp_state_t.LWFTP_QUIT_SENT => 9

/-- The immediate successor of a control state in the order of the spec,
which closes the cycle from QuitSent to Closed. -/
def next_state : lwftp_state_t → lwftp_state_t
  | lwftp_state_t.LWFTP_CLOSED => lwftp_state_t.LWFTP_CONNECTED
  | lwftp_state_t.LWFTP_CONNECTED => lwftp_state_t.LWFTP_USER_SENT
  | lwftp_state_t.LWFTP_USER_SENT => lwftp_state_t.LWFTP_PASS_SENT
  | lwftp_state_t.LWFTP_PASS_SENT => lwftp_state_t.LWFTP_TYPE_SENT
  | lwftp_state_t.LWFTP_TYPE_SENT => lwftp_state_t.LWFTP_PASV_SENT
  | lwftp_state_t.LWFTP_PASV_SENT => lwftp_state_t.LWFTP_STOR_SENT
  | lwftp_state_t.LWFTP_STOR_SENT => lwftp_state_t.LWFTP_STORING
  | lwftp_state_t.LWFTP_STORING => lwftp_state_t.LWFTP_QUIT
  | lwftp_state_t.LWFTP_QUIT => lwftp_state_t.LWFTP_QUIT_SENT
  | lwftp_state_t.LWFTP_QUIT_SENT => lwftp_state_t.LWFTP_CLOSED

/-- An environment for examples: as `quietEnv`, with a data source that
returns the four bytes `data` every time it is asked. -/
def streamEnv : Env where
  tcp_new tr := some tr.length
  tcp_connect _ _ _ _ := err_t.ERR_OK
  tcp_write _ _ _ _ := err_t.ERR_OK
  tcp_close _ _ := err_t.ERR_OK
  pcb_mss _ _ := 536
  data_source _ _ _ := ("data".toList, 4)

/-- A session in the middle of a transfer: Storing, both handles present. -/
def storingSession : lwftp_session_t :=
  { freshSession with control_state := lwftp_state_t.LWFTP_STORING,
                      control_pcb := some 0, data_pcb := some 1 }

/-- A session that awaits the reply to STOR: StorSent, both handles present. -/
def storSentSession : lwftp_session_t :=
  { freshSession with control_state := lwftp_state_t.LWFTP_STOR_SENT,
                      control_pcb := some 0, data_pcb := some 1 }

/-- The log of priming the data channel of `storSentSession` in `streamEnv`:
the data source is notified of 0 bytes, asked for a chunk, and the chunk is
submitted. -/
def primedLog : List Event :=
  [Event.data_source_notify 7 0, Event.data_source_produce 7 536 "data".toList 4,
   Event.tcp_write (some 1) "data".toList 4 err_t.ERR_OK]

/-- The entry points of the file: the public operation and the callbacks that
the TCP stack invokes, with the arguments it passes. -/
inductive Call
  | store
  | control_connected (tpcb : Option tcp_pcb) (err : err_t)
  | control_recv (tpcb : Option tcp_pcb) (p : Option pbuf) (err : err_t)
  | control_sent (tpcb : Option tcp_pcb) (len : Nat)
  | control_err (err : err_t)
  | data_connected (tpcb : Option tcp_pcb) (err : err_t)
  | data_recv (tpcb : Option tcp_pcb) (p : Option pbuf) (err : err_t)
  | data_sent (tpcb : Option tcp_pcb) (len : Nat)
  | data_err (err : err_t)
  deriving DecidableEq, Repr

/-- One entry point run on a session and a log. -/
def dispatch (E : Env) (c : Call) (s : lwftp_session_t) (tr : List Event) :
    Option (lwftp_session_t × List Event) :=
  match c with
  | Call.store => some (lwftp_store E s tr).2
  | Call.control_connected tpcb err => some ((lwftp_control_connected s tpcb err).2, tr)
  | Call.control_recv tpcb p err =>
    match lwftp_control_recv E s tr tpcb p err with
    | some o => some o.2
    | none => none
  | Call.control_sent tpcb len => some ((lwftp_control_sent s tpcb len).2, tr)
  | Call.control_err err => some (lwftp_control_err s err, tr)
  | Call.data_connected tpcb err => some ((lwftp_data_connected s tpcb err).2, tr)
  | Call.data_recv tpcb p err => some ((lwftp_data_recv s tpcb p err).2, tr)
  | Call.data_sent tpcb len =>
    match lwftp_data_sent E s tr tpcb len with
    | some o => some o.2
    | none => none
  | Call.data_err err => some (lwftp_data_err s err, tr)

/-- A sequence of entry points run one after the other. -/
def run (E : Env) : List Call → lwftp_session_t → List Event →
    Option (lwftp_session_t × List Event)
  | [], s, tr => some (s, tr)
  | c :: cs, s, tr =>
    match dispatch E c s tr with
    | some o => run E cs o.1 o.2
    | none => none

/-- A session that awaits the reply to PASV: PasvSent, both handles present. -/
def pasvSentSession : lwftp_session_t :=
  { freshSession with control_state := lwftp_state_t.LWFTP_PASV_SENT,
                      control_pcb := some 0, data_pcb := some 1 }

/-- The entry point is a data connect callback that reports success. -/
def is_data_connect_ok : Call → Bool
  | Call.data_connected _ err_t.ERR_OK => true
  | _ => false

/-- A whole upload in `quietEnv`, up to the reply 150: the store, the control
connect callback, the replies 220, 331, 230, 200 and 227 with its sextet, the
data connect callback reporting success, and the reply 150. -/
def uploadCalls : List Call :=
  [Call.store,
   Call.control_connected (some 0) err_t.ERR_OK,
   Call.control_recv (some 0) (some ⟨"220 ready".toList, 9⟩) err_t.ERR_OK,
   Call.control_recv (some 0) (some ⟨"331 password".toList, 12⟩) err_t.ERR_OK,
   Call.control_recv (some 0) (some ⟨"230 in".toList, 6⟩) err_t.ERR_OK,
   Call.control_recv (some 0) (some ⟨"200 ok".toList, 6⟩) err_t.ERR_OK,
   Call.control_recv (some 0) (some ⟨"227 passive (10,0,0,5,200,100)".toList, 30⟩)
     err_t.ERR_OK,
   Call.data_connected (some 1) err_t.ERR_OK,
   Call.control_recv (some 0) (some ⟨"150 go".toList, 6⟩) err_t.ERR_OK]

/-! ## Admission and initiation (`lwftp_store`) -/

/-- C1 (admission): a session whose control state is not Closed, or whose
remote path is null, or that already holds a control or a data handle, is
rejected by `lwftp_store` with `ERR_ARG`; the session is returned as it was
and the log of transport calls is unchanged. -/
theorem lwftp_store_rejects (E : Env) (s : lwftp_session_t) (tr : List Event)
    (h : s.control_state ≠ lwftp_state_t.LWFTP_CLOSED ∨ s.remote_path = none ∨
      s.control_pcb ≠ none ∨ s.data_pcb ≠ none) :
    lwftp_store E s tr = (err_t.ERR_ARG, s, tr) := by
  unfold lwftp_store
  rw [if_pos h]

theorem lwftp_store_rejects_witness :
    lwftp_store quietEnv { freshSession with data_pcb := some 4 } [] =
      (err_t.ERR_ARG, { freshSession with data_pcb := some 4 }, []) :=
  lwftp_store_rejects quietEnv { freshSession with data_pcb := some 4 } []
    (Or.inr (Or.inr (Or.inr (by decide))))

/-- The log of closing one connection equals the four calls of
`lwftp_pcb_close` appended to the log. -/
theorem lwftp_pcb_close_log (E : Env) (h : Option tcp_pcb) (tr : List Event) :
    (lwftp_pcb_close E h tr).2 = tr ++ [Event.tcp_err h none, Event.tcp_recv h none,
      Event.tcp_sent h none, Event.tcp_close h (E.tcp_close (tr ++ [Event.tcp_err h none,
        Event.tcp_recv h none, Event.tcp_sent h none]) h)] := by
  simp [lwftp_pcb_close]

/-- Teardown only appends to the log: what it appends closes the data
connection and then the control connection, each only when its handle is
present, writes nothing, connects nothing and allocates nothing. -/
theorem lwftp_control_close_log (E : Env) (s : lwftp_session_t) (tr : List Event) :
    ∃ ev, lwftp_control_close E s tr =
        ({ s with data_pcb := none, control_pcb := none,
                  control_state := lwftp_state_t.LWFTP_CLOSED }, tr ++ ev) ∧
      closes ev = (s.data_pcb.toList ++ s.control_pcb.toList).map some ∧
      (∀ h, written h ev = []) ∧ connects ev = [] ∧ allocated ev = [] := by
  cases hd : s.data_pcb <;> cases hc : s.control_pcb
  · exact ⟨[], by simp [lwftp_control_close, hd, hc, closes, written, connects, allocated]⟩
  · exact ⟨_, by simp [lwftp_control_close, hd, hc, lwftp_pcb_close_log]; rfl,
      by simp [closes], by simp [written], by simp [connects], by simp [allocated]⟩
  · exact ⟨_, by simp [lwftp_control_close, hd, hc, lwftp_pcb_close_log]; rfl,
      by simp [closes], by simp [written], by simp [connects], by simp [allocated]⟩
  · refine ⟨_, by simp only [lwftp_control_close, hd, hc, lwftp_pcb_close_log,
      List.append_assoc]; rfl, ?_, ?_, ?_, ?_⟩ <;>
      simp [closes, written, connects, allocated]

/-- C6 (failure after admission): for an admitted session, when the control
allocation fails or the data allocation fails `lwftp_store` returns `ERR_MEM`,
and when the control connect is refused it returns the connect error.  In each
case the session on return equals the session before the call (handles null,
control state Closed), and among the calls appended to the log `tcp_close` was
issued on exactly the handles that `tcp_new` gave out during the call. -/
theorem lwftp_store_failure_releases (E : Env) (s : lwftp_session_t) (tr : List Event)
    (hst : s.control_state = lwftp_state_t.LWFTP_CLOSED) (hpath : s.remote_path ≠ none)
    (hc : s.control_pcb = none) (hd : s.data_pcb = none) :
    (E.tcp_new tr = none →
      ∃ ev, lwftp_store E s tr = (err_t.ERR_MEM, s, tr ++ ev) ∧
        allocated ev = [] ∧ closes ev = []) ∧
    (∀ c, E.tcp_new tr = some c → E.tcp_new (tr ++ [Event.tcp_new (some c)]) = none →
      ∃ ev, lwftp_store E s tr = (err_t.ERR_MEM, s, tr ++ ev) ∧
        allocated ev = [c] ∧ closes ev = [some c]) ∧
    (∀ c d e, E.tcp_new tr = some c →
      E.tcp_new (tr ++ [Event.tcp_new (some c)]) = some d →
      E.tcp_connect (tr ++ [Event.tcp_new (some c), Event.tcp_new (some d),
        Event.tcp_arg (some c),
        Event.tcp_err (some c) (some Callback.lwftp_control_err),
        Event.tcp_recv (some c) (some Callback.lwftp_control_recv),
        Event.tcp_sent (some c) (some Callback.lwftp_control_sent)])
        (some c) s.server_ip s.server_port = e →
      e ≠ err_t.ERR_OK →
      ∃ ev, lwftp_store E s tr = (e, s, tr ++ ev) ∧
        allocated ev = [c, d] ∧ closes ev = [some d, some c]) := by
  obtain ⟨ip, port, path, src, st, dst, cp, dp⟩ := s
  simp only at hst hpath hc hd
  subst hst hc hd
  refine ⟨?_, ?_, ?_⟩
  · intro hn
    exact ⟨[Event.tcp_new none], by simp [lwftp_store, hpath, hn],
      by simp [allocated], by simp [closes]⟩
  · intro c hn1 hn2
    exact ⟨_, by simp [lwftp_store, hpath, hn1, hn2, lwftp_control_close,
      lwftp_pcb_close_log]; rfl, by simp [allocated], by simp [closes]⟩
  · intro c d e hn1 hn2 he hne
    exact ⟨_, by simp [lwftp_store, hpath, hn1, hn2, he, hne, lwftp_control_close,
      lwftp_pcb_close_log]; rfl, by simp [allocated], by simp [closes]⟩

theorem lwftp_store_failure_releases_witness :
    ∃ ev, lwftp_store scarceEnv freshSession [] = (err_t.ERR_MEM, freshSession, [] ++ ev) ∧
      allocated ev = [1] ∧ closes ev = [some 1] :=
  (lwftp_store_failure_releases scarceEnv freshSession [] rfl (by decide) rfl rfl).2.1
    1 rfl rfl

/-- Sending the next chunk returns `ERR_OK` and changes at most the data
handle of the session, which it can only clear. -/
theorem lwftp_send_next_data_session (E : Env) (s : lwftp_session_t) (tr : List Event)
    (o : err_t × lwftp_session_t × List Event)
    (h : lwftp_send_next_data E s tr = some o) :
    o.1 = err_t.ERR_OK ∧ (o.2.1 = s ∨ o.2.1 = { s with data_pcb := none }) := by
  obtain ⟨ip, port, path, src, st, dst, cp, dp⟩ := s
  unfold lwftp_send_next_data at h
  rcases src with _ | f
  · simp at h
    subst h
    simp
  · rcases dp with _ | d
    · simp at h
    · simp only at h
      by_cases h0 : (E.data_source tr f (E.pcb_mss tr d)).2 = 0 <;>
        simp [h0] at h <;> (rw [← h]; simp)

/-- The send-acknowledgement callback returns `ERR_OK` and changes at most
the data handle of the session, which it can only clear. -/
theorem lwftp_data_sent_session (E : Env) (s : lwftp_session_t) (tr : List Event)
    (tpcb : Option tcp_pcb) (len : Nat) (o : err_t × lwftp_session_t × List Event)
    (h : lwftp_data_sent E s tr tpcb len = some o) :
    o.1 = err_t.ERR_OK ∧ (o.2.1 = s ∨ o.2.1 = { s with data_pcb := none }) := by
  unfold lwftp_data_sent at h
  split at h <;> exact lwftp_send_next_data_session E s _ o h

/-- The control state after a step of the state machine is Connected only when
it was Connected before the step. -/
theorem lwftp_control_process_connected (E : Env) (s : lwftp_session_t) (tr : List Event)
    (tpcb : Option tcp_pcb) (p : Option pbuf) (o : lwftp_session_t × List Event)
    (h : lwftp_control_process E s tr tpcb p = some o)
    (hc : o.1.control_state = lwftp_state_t.LWFTP_CONNECTED) :
    s.control_state = lwftp_state_t.LWFTP_CONNECTED := by
  obtain ⟨ip, port, path, src, st, dst, cp, dp⟩ := s
  cases st
  case LWFTP_CONNECTED => rfl
  case LWFTP_STOR_SENT =>
    exfalso
    simp only [lwftp_control_process] at h
    split_ifs at h with h1 h2
    · cases hds : lwftp_data_sent E
          { server_ip := ip, server_port := port, remote_path := path, data_source := src,
            control_state := lwftp_state_t.LWFTP_STORING, data_state := dst,
            control_pcb := cp, data_pcb := dp } tr none 0 with
      | none => simp [hds] at h
      | some r =>
        obtain ⟨_, hr | hr⟩ := lwftp_data_sent_session E _ tr none 0 r hds
        all_goals (simp [hds, hr] at h; rw [← h] at hc; simp at hc)
    · simp at h; rw [← h] at hc; simp at hc
    · simp at h; rw [← h] at hc; simp at hc
  case LWFTP_PASV_SENT =>
    exfalso
    simp only [lwftp_control_process] at h
    split_ifs at h with h1 h2
    · rcases p with _ | pb <;> rcases path with _ | pa <;> simp at h
      rw [← h] at hc; simp [lwftp_data_open] at hc
    · simp at h; rw [← h] at hc; simp at hc
    · simp at h; rw [← h] at hc; simp at hc
  all_goals
    exfalso
    simp only [lwftp_control_process, lwftp_control_close] at h
    split_ifs at h <;> simp at h <;> rw [← h] at hc <;> simp at hc

/-- C8 (successful store makes no state transition): for an admitted session
whose two allocations and immediate connect succeed, `lwftp_store` returns
`ERR_OK`; control state and data state are what they were (Closed for the
control state), both handles are present, and the only connect issued is the
one on the control connection to the configured server address and port, with
`lwftp_control_connected` as its callback.  The control state becomes Connected
in the control connect callback when it reports success, the callback changes
nothing when it reports an error, and neither a control receive event nor a
data send-acknowledgement nor a data connect callback moves a session that is
not Connected to Connected. -/
theorem lwftp_store_success_no_transition (E : Env) (s : lwftp_session_t)
    (tr : List Event) (c d : tcp_pcb)
    (hst : s.control_state = lwftp_state_t.LWFTP_CLOSED) (hpath : s.remote_path ≠ none)
    (hc : s.control_pcb = none) (hd : s.data_pcb = none)
    (hn1 : E.tcp_new tr = some c)
    (hn2 : E.tcp_new (tr ++ [Event.tcp_new (some c)]) = some d)
    (hco : E.tcp_connect (tr ++ [Event.tcp_new (some c), Event.tcp_new (some d),
        Event.tcp_arg (some c),
        Event.tcp_err (some c) (some Callback.lwftp_control_err),
        Event.tcp_recv (some c) (some Callback.lwftp_control_recv),
        Event.tcp_sent (some c) (some Callback.lwftp_control_sent)])
        (some c) s.server_ip s.server_port = err_t.ERR_OK) :
    (∃ ev, lwftp_store E s tr =
        (err_t.ERR_OK, { s with control_pcb := some c, data_pcb := some d }, tr ++ ev) ∧
      connects ev =
        [(some c, s.server_ip, s.server_port, Callback.lwftp_control_connected)] ∧
      closes ev = []) ∧
    (lwftp_store E s tr).2.1.control_state = lwftp_state_t.LWFTP_CLOSED ∧
    (lwftp_store E s tr).2.1.data_state = s.data_state ∧
    (∀ (x : lwftp_session_t) (tpcb : Option tcp_pcb),
      lwftp_control_connected x tpcb err_t.ERR_OK =
        (err_t.ERR_OK, { x with control_state := lwftp_state_t.LWFTP_CONNECTED })) ∧
    (∀ (x : lwftp_session_t) (tpcb : Option tcp_pcb) (e : err_t), e ≠ err_t.ERR_OK →
      lwftp_control_connected x tpcb e = (e, x)) ∧
    (∀ (x : lwftp_session_t) (t : List Event) (tpcb : Option tcp_pcb) (p : Option pbuf)
      (e : err_t) (o : err_t × lwftp_session_t × List Event),
      lwftp_control_recv E x t tpcb p e = some o →
      o.2.1.control_state = lwftp_state_t.LWFTP_CONNECTED →
      x.control_state = lwftp_state_t.LWFTP_CONNECTED) ∧
    (∀ (x : lwftp_session_t) (t : List Event) (tpcb : Option tcp_pcb) (len : Nat)
      (o : err_t × lwftp_session_t × List Event),
      lwftp_data_sent E x t tpcb len = some o →
      o.2.1.control_state = x.control_state) ∧
    (∀ (x : lwftp_session_t) (tpcb : Option tcp_pcb) (e : err_t),
      (lwftp_data_connected x tpcb e).2.control_state = x.control_state) := by
  have hstore : ∃ ev, lwftp_store E s tr =
        (err_t.ERR_OK, { s with control_pcb := some c, data_pcb := some d }, tr ++ ev) ∧
      connects ev =
        [(some c, s.server_ip, s.server_port, Callback.lwftp_control_connected)] ∧
      closes ev = [] := by
    obtain ⟨ip, port, path, src, st, dst, cp, dp⟩ := s
    simp only at hst hpath hc hd hco
    subst hst hc hd
    exact ⟨_, by simp [lwftp_store, hpath, hn1, hn2, hco]; rfl,
      by simp [connects], by simp [closes]⟩
  obtain ⟨ev, hev, hcon, hcl⟩ := hstore
  refine ⟨⟨ev, hev, hcon, hcl⟩, by rw [hev]; exact hst, by rw [hev], ?_, ?_, ?_, ?_, ?_⟩
  · intro x tpcb
    simp [lwftp_control_connected]
  · intro x tpcb e he
    simp [lwftp_control_connected, he]
  · intro x t tpcb p e o ho hoc
    unfold lwftp_control_recv at ho
    split_ifs at ho with he
    · rcases p with _ | pb
      · simp at ho
        rw [← ho] at hoc
        simp [lwftp_control_close] at hoc
      · simp only at ho
        cases hp : lwftp_control_process E x (t ++ [Event.tcp_recved tpcb pb.tot_len])
            tpcb (some pb) with
        | none => simp [hp] at ho
        | some r =>
          simp [hp] at ho
          rw [← ho] at hoc
          exact lwftp_control_process_connected E x _ tpcb (some pb) r hp hoc
    · simp at ho
      rw [← ho] at hoc
      simp [lwftp_control_close] at hoc
  · intro x t tpcb len o ho
    obtain ⟨_, h | h⟩ := lwftp_data_sent_session E x t tpcb len o ho <;> rw [h]
  · intro x tpcb e
    unfold lwftp_data_connected
    split_ifs <;> rfl

theorem lwftp_store_success_no_transition_witness :
    (lwftp_store quietEnv freshSession []).1 = err_t.ERR_OK ∧
    (lwftp_store quietEnv freshSession []).2.1.control_state =
      lwftp_state_t.LWFTP_CLOSED ∧
    (lwftp_store quietEnv freshSession []).2.1.control_pcb = some 0 ∧
    (lwftp_store quietEnv freshSession []).2.1.data_pcb = some 1 :=
  have h := lwftp_store_success_no_transition quietEnv freshSession [] 0 1 rfl
    (by decide) rfl rfl rfl rfl rfl
  ⟨by obtain ⟨ev, hev, _⟩ := h.1; rw [hev], h.2.1,
   by obtain ⟨ev, hev, _⟩ := h.1; rw [hev],
   by obtain ⟨ev, hev, _⟩ := h.1; rw [hev]⟩

/-! ## The control dialogue -/

/-- C9 (session close on the QUIT reply): in QuitSent, a reply whose parsed
code is not 0 (221 or any other) makes one processing step that writes nothing
on any connection, issues `tcp_close` on the data connection when its handle
is present and then on the control connection when its handle is present, and
ends with both handles null and the control state Closed. -/
theorem lwftp_quit_reply_closes (E : Env) (s : lwftp_session_t) (tr : List Event)
    (tpcb : Option tcp_pcb) (pb : pbuf)
    (hst : s.control_state = lwftp_state_t.LWFTP_QUIT_SENT)
    (hcode : response_code (some pb) ≠ 0) :
    ∃ ev, lwftp_control_process E s tr tpcb (some pb) =
        some ({ s with data_pcb := none, control_pcb := none,
                       control_state := lwftp_state_t.LWFTP_CLOSED }, tr ++ ev) ∧
      (∀ h, written h ev = []) ∧
      closes ev = (s.data_pcb.toList ++ s.control_pcb.toList).map some := by
  obtain ⟨ev, hev, hcl, hw, _, _⟩ := lwftp_control_close_log E s tr
  refine ⟨ev, ?_, hw, hcl⟩
  have hpos : 0 < response_code (some pb) := Nat.pos_of_ne_zero hcode
  simp [lwftp_control_process, hst, hpos, hev]

theorem lwftp_quit_reply_closes_witness :
    ∃ ev, lwftp_control_process quietEnv
        { freshSession with control_state := lwftp_state_t.LWFTP_QUIT_SENT,
                            control_pcb := some 0 } [] (some 0)
        (some ⟨"221 Goodbye".toList, 11⟩) =
        some (freshSession, [] ++ ev) ∧
      (∀ h, written h ev = []) ∧ closes ev = [some 0] :=
  lwftp_quit_reply_closes quietEnv
    { freshSession with control_state := lwftp_state_t.LWFTP_QUIT_SENT,
                        control_pcb := some 0 } [] (some 0)
    ⟨"221 Goodbye".toList, 11⟩ rfl (by decide)

/-- C10, as the code has it (idempotent teardown): applying
`lwftp_control_close` to its own result changes neither the session nor the
log, so it closes no connection; on a session whose two handles are null,
teardown issues no transport call and changes no field other than the control
state, which it sets to Closed, and it changes nothing at all when the control
state is Closed already. -/
theorem lwftp_control_close_idempotent (E : Env) (s : lwftp_session_t) (tr : List Event) :
    lwftp_control_close E (lwftp_control_close E s tr).1 (lwftp_control_close E s tr).2 =
      lwftp_control_close E s tr ∧
    (s.control_pcb = none → s.data_pcb = none →
      lwftp_control_close E s tr =
        ({ s with control_state := lwftp_state_t.LWFTP_CLOSED }, tr)) ∧
    (s.control_pcb = none → s.data_pcb = none →
      s.control_state = lwftp_state_t.LWFTP_CLOSED →
      lwftp_control_close E s tr = (s, tr)) := by
  obtain ⟨ip, port, path, src, st, dst, cp, dp⟩ := s
  refine ⟨?_, ?_, ?_⟩
  · simp [lwftp_control_close]
  · intro hc hd
    simp only at hc hd
    subst hc hd
    simp [lwftp_control_close]
  · intro hc hd hst
    simp only at hc hd hst
    subst hc hd hst
    simp [lwftp_control_close]

theorem lwftp_control_close_idempotent_witness :
    lwftp_control_close quietEnv freshSession [] = (freshSession, []) :=
  (lwftp_control_close_idempotent quietEnv freshSession []).2.2 rfl rfl rfl

/-- C10, as the claim states it, fails: a session in QuitSent whose two
handles are null is changed by teardown, which moves it to Closed. -/
theorem lwftp_control_close_not_noop :
    ({ freshSession with control_state := lwftp_state_t.LWFTP_QUIT_SENT } :
        lwftp_session_t).control_pcb = none ∧
    ({ freshSession with control_state := lwftp_state_t.LWFTP_QUIT_SENT } :
        lwftp_session_t).data_pcb = none ∧
    (lwftp_control_close quietEnv
        { freshSession with control_state := lwftp_state_t.LWFTP_QUIT_SENT } []).1 ≠
      { freshSession with control_state := lwftp_state_t.LWFTP_QUIT_SENT } := by
  decide

/-- C3 (rejection path): in each of Connected, UserSent, PassSent, TypeSent,
PasvSent and StorSent, a reply whose parsed code is not 0 and is not the code
expected in that state makes one processing step that appends a single call to
the log, the write of `QUIT\n` on the control connection, and ends in QuitSent
with every other field unchanged; so nothing else is written and no connect is
issued.  Code 530 at UserSent is the instance of the witness. -/
theorem lwftp_unexpected_reply_quits (E : Env) (s : lwftp_session_t) (tr : List Event)
    (tpcb : Option tcp_pcb) (pb : pbuf) (code : Nat)
    (hexp : expected_reply s.control_state = some code)
    (hnz : response_code (some pb) ≠ 0)
    (hne : response_code (some pb) ≠ code) :
    ∃ ev, lwftp_control_process E s tr tpcb (some pb) =
        some ({ s with control_state := lwftp_state_t.LWFTP_QUIT_SENT }, tr ++ ev) ∧
      ev = [Event.tcp_write s.control_pcb "QUIT\n".toList 5
        (E.tcp_write tr s.control_pcb "QUIT\n".toList 5)] ∧
      written s.control_pcb ev = "QUIT\n".toList ∧
      (∀ h, h ≠ s.control_pcb → written h ev = []) ∧
      connects ev = [] := by
  have hpos : 0 < response_code (some pb) := Nat.pos_of_ne_zero hnz
  obtain ⟨ip, port, path, src, st, dst, cp, dp⟩ := s
  refine ⟨_, ?_, rfl, by simp [written], ?_, by simp [connects]⟩
  · cases st <;> simp [expected_reply] at hexp <;> subst hexp <;>
      simp [lwftp_control_process, hpos, hne, lwftp_send_lit, lwftp_send_msg]
  · intro h hh
    simp only [written]
    rw [if_neg (fun e => hh e.symm)]

theorem lwftp_unexpected_reply_quits_witness :
    ∃ ev, lwftp_control_process quietEnv
        { freshSession with control_state := lwftp_state_t.LWFTP_USER_SENT,
                            control_pcb := some 0, data_pcb := some 1 } [] (some 0)
        (some ⟨"530 Login incorrect".toList, 19⟩) =
        some ({ freshSession with control_state := lwftp_state_t.LWFTP_QUIT_SENT,
                                  control_pcb := some 0, data_pcb := some 1 }, [] ++ ev) ∧
      ev = [Event.tcp_write (some 0) "QUIT\n".toList 5 err_t.ERR_OK] ∧
      written (some 0) ev = "QUIT\n".toList ∧
      (∀ h, h ≠ some 0 → written h ev = []) ∧
      connects ev = [] :=
  lwftp_unexpected_reply_quits quietEnv
    { freshSession with control_state := lwftp_state_t.LWFTP_USER_SENT,
                        control_pcb := some 0, data_pcb := some 1 } [] (some 0)
    ⟨"530 Login incorrect".toList, 19⟩ 331 rfl (by decide) (by decide)

/-! ## Reply parsing -/

/-- The digit loop reads the leading digit run and stops right after it. -/
theorem strtoul_digits_eq (l : List Char) (acc : Nat) :
    strtoul_digits l acc =
      ((l.takeWhile isdigit).foldl (fun a c => a * 10 + digitVal c) acc,
        l.dropWhile isdigit) := by
  induction l generalizing acc with
  | nil => simp [strtoul_digits]
  | cons c cs ih =>
    by_cases hc : isdigit c = true
    · simp [strtoul_digits, hc, ih]
    · simp [strtoul_digits, hc]

/-- A decimal digit is neither white space nor a sign. -/
theorem isdigit_not_space_sign (c : Char) (hc : isdigit c = true) :
    isspace c = false ∧ c ≠ '-' ∧ c ≠ '+' := by
  simp only [isdigit, Bool.and_eq_true, decide_eq_true_eq] at hc
  refine ⟨?_, ?_, ?_⟩
  · simp only [isspace, Bool.or_eq_false_iff, decide_eq_false_iff_not, Bool.and_eq_false_imp,
      decide_eq_true_eq]
    omega
  · rintro rfl
    simp at hc
  · rintro rfl
    simp at hc

/-- On a text that begins with a digit `strtoul` reads the leading digit run,
saturating at `ULONG_MAX`, and stops right after the run. -/
theorem strtoul_of_digit (c : Char) (cs : List Char) (hc : isdigit c = true) :
    strtoul (c :: cs) =
      (if ULONG_MAX < decimal_value (digit_run (c :: cs)) then ULONG_MAX
        else decimal_value (digit_run (c :: cs)),
       (c :: cs).dropWhile isdigit) := by
  obtain ⟨h1, h2, h3⟩ := isdigit_not_space_sign c hc
  have hm : ¬ (c = '-') := h2
  have hp : ¬ (c = '+') := h3
  simp [strtoul, skip_space, h1, hm, hp, hc, strtoul_digits_eq, decimal_value, digit_run]

/-- The value that `strtoul` reads does not change when a white space
character is put in front of the text. -/
theorem strtoul_skips_space (c : Char) (cs : List Char) (hc : isspace c = true) :
    (strtoul (c :: cs)).1 = (strtoul cs).1 := by
  simp only [strtoul, skip_space, hc, if_true]
  split
  · rfl
  · split_ifs <;> rfl

/-- C7, as the code has it (reply-code extraction): the code that
`lwftp_control_process` uses is the number written by the leading digit run
of the buffer whenever the buffer begins with a decimal digit and that number
is at most 4294967295; it is 0 for an empty buffer and for a buffer that
begins with a character that is not a digit, not white space and not a sign;
and leading white space is skipped, so the code of a buffer that begins with
white space is the code of the text after it. -/
theorem response_code_spec (pb : pbuf) :
    (∀ c cs, pb.payload = c :: cs → isdigit c = true →
      decimal_value (digit_run pb.payload) ≤ 4294967295 →
      response_code (some pb) = decimal_value (digit_run pb.payload)) ∧
    (pb.payload = [] → response_code (some pb) = 0) ∧
    (∀ c cs, pb.payload = c :: cs → isdigit c = false → isspace c = false →
      c ≠ '-' → c ≠ '+' → response_code (some pb) = 0) ∧
    (∀ c cs, pb.payload = c :: cs → isspace c = true →
      response_code (some pb) = response_code (some ⟨cs, pb.tot_len⟩)) := by
  refine ⟨?_, ?_, ?_, ?_⟩
  · intro c cs hp hc hv
    rw [hp] at hv ⊢
    have hlt : ¬ (ULONG_MAX < decimal_value (digit_run (c :: cs))) := by
      simp only [ULONG_MAX]; omega
    simp only [response_code, hp, strtoul_of_digit c cs hc, if_neg hlt]
    omega
  · intro hp
    simp [response_code, hp, strtoul, skip_space]
  · intro c cs hp hd hs hm hpl
    have hm' : ¬ (c = '-') := hm
    have hpl' : ¬ (c = '+') := hpl
    simp [response_code, hp, strtoul, skip_space, hs, hd, hm', hpl']
  · intro c cs hp hs
    simp only [response_code, hp, strtoul_skips_space c cs hs]

theorem response_code_spec_witness :
    response_code (some ⟨"220 Service ready".toList, 17⟩) =
      decimal_value (digit_run "220 Service ready".toList) :=
  (response_code_spec ⟨"220 Service ready".toList, 17⟩).1 '2' "20 Service ready".toList
    rfl (by decide) (by decide)

/-- C7, as the claim states it, fails: the buffer ` 220 ready` begins with a
blank, not with a decimal digit, and its code is 220, not 0; the buffer `+150`
begins with a sign and its code is 150. -/
theorem response_code_skips_space_and_sign :
    isdigit ' ' = false ∧
    response_code (some ⟨" 220 ready".toList, 10⟩) = 220 ∧
    decimal_value (digit_run " 220 ready".toList) = 0 ∧
    isdigit '+' = false ∧
    response_code (some ⟨"+150".toList, 4⟩) = 150 := by
  decide

/-- The port computed from the fifth and sixth field keeps the low byte of
each field. -/
theorem pasv_port_eq (h l : Nat) : pasv_port h l = (h % 256) * 256 + l % 256 := by
  unfold pasv_port ULONG_MAX
  have h1 : l &&& 255 = l % 256 := Nat.and_pow_two_sub_one_eq_mod l 8
  have h2 : (h <<< 8) % (4294967295 + 1) % 65536 = 256 * (h % 256) := by
    rw [Nat.shiftLeft_eq]
    have : h * 2 ^ 8 % (4294967295 + 1) % 65536 = h * 256 % 65536 := by
      norm_num
    rw [this]
    omega
  rw [h1, h2]
  have h3 : l % 256 < 2 ^ 8 := by
    have := Nat.mod_lt l (by decide : 0 < 256)
    simpa using this
  have h4 := Nat.mul_add_lt_is_or h3 (h % 256)
  have h5 : (2 : Nat) ^ 8 = 256 := by norm_num
  rw [h5] at h4
  rw [← h4]
  have : h % 256 < 256 := Nat.mod_lt h (by decide)
  have : l % 256 < 256 := Nat.mod_lt l (by decide)
  omega

/-- `strchr` finds the first occurrence: characters other than the one sought
are passed over. -/
theorem strchr_append (pre rest : List Char) (c : Char) (hpre : c ∉ pre) :
    strchr (pre ++ c :: rest) c = some (c :: rest) := by
  induction pre with
  | nil => simp [strchr]
  | cons x xs ih =>
    have hx : ¬ (x = c) := fun e => hpre (by simp [e])
    have hxs : c ∉ xs := fun e => hpre (by simp [e])
    simp [strchr, hx, ih hxs]

/-- `strchr` answers null on a text without the character sought. -/
theorem strchr_none (l : List Char) (c : Char) (h : c ∉ l) : strchr l c = none := by
  induction l with
  | nil => simp [strchr]
  | cons x xs ih =>
    have hx : ¬ (x = c) := fun e => h (by simp [e])
    have hxs : c ∉ xs := fun e => h (by simp [e])
    simp [strchr, hx, ih hxs]

/-- On a decimal field followed by text that does not begin with a digit,
`strtoul` reads the number the field writes, when it fits, and stops at the
end of the field. -/
theorem strtoul_field (f rest : List Char)
    (hf : decimal_field f = true) (hd : ∀ d, rest.head? = some d → isdigit d = false)
    (hv : decimal_value f ≤ ULONG_MAX) :
    strtoul (f ++ rest) = (decimal_value f, rest) := by
  have hall : ∀ c ∈ f, isdigit c = true := by
    simp [decimal_field] at hf
    exact hf.2
  have hrest : rest.takeWhile isdigit = [] ∧ rest.dropWhile isdigit = rest := by
    rcases rest with _ | ⟨d, ds⟩
    · simp
    · have := hd d rfl
      simp [List.takeWhile, List.dropWhile, this]
  have hrun : (f ++ rest).takeWhile isdigit = f := by
    rw [List.takeWhile_append_of_pos hall, hrest.1]
    simp
  have hdrop : (f ++ rest).dropWhile isdigit = rest := by
    rw [List.dropWhile_append_of_pos hall, hrest.2]
  rcases f with _ | ⟨c, cs⟩
  · simp [decimal_field] at hf
  · have hc : isdigit c = true := hall c (by simp)
    have := strtoul_of_digit c (cs ++ rest) hc
    rw [List.cons_append, this]
    rw [← List.cons_append, hdrop]
    simp only [digit_run]
    rw [hrun, if_neg (by omega)]

/-- The six field reads on six decimal fields give the six numbers written
and stop at the end of the sixth field. -/
theorem pasv_fields_sextet (fa fb fc fd fh fl rest : List Char)
    (hfa : decimal_field fa = true) (hfb : decimal_field fb = true)
    (hfc : decimal_field fc = true) (hfd : decimal_field fd = true)
    (hfh : decimal_field fh = true) (hfl : decimal_field fl = true)
    (ha : decimal_value fa ≤ ULONG_MAX) (hb : decimal_value fb ≤ ULONG_MAX)
    (hc : decimal_value fc ≤ ULONG_MAX) (hd : decimal_value fd ≤ ULONG_MAX)
    (hh : decimal_value fh ≤ ULONG_MAX) (hl : decimal_value fl ≤ ULONG_MAX)
    (hrest : ∀ d, rest.head? = some d → isdigit d = false) :
    pasv_fields (sextet_fields fa fb fc fd fh fl ++ rest) =
      ([decimal_value fa, decimal_value fb, decimal_value fc, decimal_value fd,
        decimal_value fh, decimal_value fl], rest) := by
  have hcomma : ∀ (r : List Char) (d : Char), (',' :: r).head? = some d →
      isdigit d = false := by
    intro r d h
    simp at h
    subst h
    decide
  simp only [sextet_fields, pasv_fields, List.cons_append, List.append_assoc, List.tail_cons,
    strtoul_field _ _ hfa (hcomma _) ha, strtoul_field _ _ hfb (hcomma _) hb,
    strtoul_field _ _ hfc (hcomma _) hc, strtoul_field _ _ hfd (hcomma _) hd,
    strtoul_field _ _ hfh (hcomma _) hh, strtoul_field _ _ hfl hrest hl]

/-- The text after the closing bracket of a sextet does not matter to the
reads: they stop at the bracket. -/
theorem close_bracket_not_digit (post : List Char) (d : Char)
    (h : (')' :: post).head? = some d) : isdigit d = false := by
  simp at h
  subst h
  decide

/-- On a reply whose first opening bracket starts a sextet of decimal fields,
each writing at most 255, opening the data connection appends the four
registrations and the connect to the endpoint the fields write. -/
theorem lwftp_data_open_sextet (E : Env) (s : lwftp_session_t) (tr : List Event)
    (pre fa fb fc fd fh fl post : List Char) (tot : Nat)
    (hpre : '(' ∉ pre)
    (hfa : decimal_field fa = true) (hfb : decimal_field fb = true)
    (hfc : decimal_field fc = true) (hfd : decimal_field fd = true)
    (hfh : decimal_field fh = true) (hfl : decimal_field fl = true)
    (ha : decimal_value fa ≤ 255) (hb : decimal_value fb ≤ 255)
    (hc : decimal_value fc ≤ 255) (hd : decimal_value fd ≤ 255)
    (hh : decimal_value fh ≤ 255) (hl : decimal_value fl ≤ 255) :
    ∃ res, lwftp_data_open E s tr ⟨pre ++ sextet fa fb fc fd fh fl ++ post, tot⟩ =
      (res, s, tr ++ data_open_calls s.data_pcb
        { addr1 := decimal_value fa, addr2 := decimal_value fb,
          addr3 := decimal_value fc, addr4 := decimal_value fd }
        (decimal_value fh * 256 + decimal_value fl) res) := by
  have hU : ∀ n, n ≤ 255 → n ≤ ULONG_MAX := fun n hn => by
    simp only [ULONG_MAX]; omega
  have hfields := pasv_fields_sextet fa fb fc fd fh fl (')' :: post) hfa hfb hfc hfd hfh
    hfl (hU _ ha) (hU _ hb) (hU _ hc) (hU _ hd) (hU _ hh) (hU _ hl)
    (close_bracket_not_digit post)
  have hchr : strchr (pre ++ sextet fa fb fc fd fh fl ++ post) '(' =
      some (sextet_fields fa fb fc fd fh fl ++ ')' :: post) := by
    have := strchr_append pre (fa ++ ',' :: (fb ++ ',' :: (fc ++ ',' :: (fd ++ ',' ::
      (fh ++ ',' :: fl)))) ++ ')' :: post) '(' hpre
    simpa [sextet, sextet_fields] using this
  have hparse : pasv_parse (pre ++ sextet fa fb fc fd fh fl ++ post) =
      Except.ok (ip_addr_t.mk (decimal_value fa) (decimal_value fb)
          (decimal_value fc) (decimal_value fd),
        decimal_value fh * 256 + decimal_value fl) := by
    simp only [pasv_parse, hchr, hfields, pasv_port_eq, ip4_octet]
    simp
    refine ⟨⟨?_, ?_, ?_, ?_⟩, ?_⟩ <;> omega
  refine ⟨E.tcp_connect (tr ++ [Event.tcp_arg s.data_pcb,
      Event.tcp_err s.data_pcb (some Callback.lwftp_data_err),
      Event.tcp_recv s.data_pcb (some Callback.lwftp_data_recv),
      Event.tcp_sent s.data_pcb (some Callback.lwftp_data_sent)]) s.data_pcb
      (ip_addr_t.mk (decimal_value fa) (decimal_value fb) (decimal_value fc)
        (decimal_value fd)) (decimal_value fh * 256 + decimal_value fl), ?_⟩
  simp only [lwftp_data_open, hparse, data_open_calls]
  simp

/-- C4 (PASV parse success): when the first opening bracket of the reply is
followed by six decimal fields a,b,c,d,h,l with single commas between them
and a closing bracket after the sixth, each field writing a number of at most
255, `lwftp_data_open` registers the data callbacks and issues the connect of
the data connection to address a.b.c.d and port h*256 + l, returns what the
connect answers and leaves the session unchanged. -/
theorem lwftp_data_open_parses (E : Env) (s : lwftp_session_t) (tr : List Event)
    (pre fa fb fc fd fh fl post : List Char) (tot : Nat)
    (hpre : '(' ∉ pre)
    (hfa : decimal_field fa = true) (hfb : decimal_field fb = true)
    (hfc : decimal_field fc = true) (hfd : decimal_field fd = true)
    (hfh : decimal_field fh = true) (hfl : decimal_field fl = true)
    (ha : decimal_value fa ≤ 255) (hb : decimal_value fb ≤ 255)
    (hc : decimal_value fc ≤ 255) (hd : decimal_value fd ≤ 255)
    (hh : decimal_value fh ≤ 255) (hl : decimal_value fl ≤ 255) :
    ∃ res, lwftp_data_open E s tr ⟨pre ++ sextet fa fb fc fd fh fl ++ post, tot⟩ =
      (res, s, tr ++ data_open_calls s.data_pcb
        { addr1 := decimal_value fa, addr2 := decimal_value fb,
          addr3 := decimal_value fc, addr4 := decimal_value fd }
        (decimal_value fh * 256 + decimal_value fl) res) :=
  lwftp_data_open_sextet E s tr pre fa fb fc fd fh fl post tot hpre hfa hfb hfc hfd hfh hfl
    ha hb hc hd hh hl

theorem lwftp_data_open_parses_witness :
    ∃ res, lwftp_data_open quietEnv
        { freshSession with data_pcb := some 1 } []
        ⟨"227 Entering Passive Mode ".toList ++
          sextet "10".toList "0".toList "0".toList "5".toList "200".toList "100".toList ++
          "\r\n".toList, 49⟩ =
      (res, { freshSession with data_pcb := some 1 }, [] ++ data_open_calls (some 1)
        { addr1 := 10, addr2 := 0, addr3 := 0, addr4 := 5 } 51300 res) :=
  lwftp_data_open_parses quietEnv { freshSession with data_pcb := some 1 } []
    "227 Entering Passive Mode ".toList "10".toList "0".toList "0".toList "5".toList
    "200".toList "100".toList "\r\n".toList 49 (by decide) (by decide) (by decide)
    (by decide) (by decide) (by decide) (by decide) (by decide) (by decide) (by decide)
    (by decide) (by decide) (by decide)

/-- C5 (PASV parse failure): `lwftp_data_open` returns `ERR_BUF`, with the
session and the log of transport calls unchanged (so no data callback is
registered and no connect is issued), for every reply without an opening
bracket, for every reply in which no read leaves the text and the text after
the sixth field read does not begin with a closing bracket, and so for every
reply whose first opening bracket is followed by six decimal fields (each
writing a number below 2^32) and then by anything other than a closing bracket
or a further digit. -/
theorem lwftp_data_open_parse_failure (E : Env) (s : lwftp_session_t) (tr : List Event)
    (p : pbuf) :
    ('(' ∉ p.payload → lwftp_data_open E s tr p = (err_t.ERR_BUF, s, tr)) ∧
    (∀ ptr0, strchr p.payload '(' = some ptr0 →
      pasv_reads_inside ptr0 = true →
      (pasv_fields ptr0).2.head? ≠ some ')' →
      lwftp_data_open E s tr p = (err_t.ERR_BUF, s, tr)) ∧
    (∀ pre fa fb fc fd fh fl rest,
      p.payload = pre ++ sextet_fields fa fb fc fd fh fl ++ rest → '(' ∉ pre →
      decimal_field fa = true → decimal_field fb = true → decimal_field fc = true →
      decimal_field fd = true → decimal_field fh = true → decimal_field fl = true →
      decimal_value fa ≤ 4294967295 → decimal_value fb ≤ 4294967295 → decimal_value fc ≤ 4294967295 →
      decimal_value fd ≤ 4294967295 → decimal_value fh ≤ 4294967295 → decimal_value fl ≤ 4294967295 →
      (∀ d, rest.head? = some d → isdigit d = false ∧ d ≠ ')') →
      lwftp_data_open E s tr p = (err_t.ERR_BUF, s, tr)) := by
  have hgen : ∀ ptr0, strchr p.payload '(' = some ptr0 →
      (pasv_fields ptr0).2.head? ≠ some ')' →
      lwftp_data_open E s tr p = (err_t.ERR_BUF, s, tr) := by
    intro ptr0 hchr hhead
    simp only [lwftp_data_open, pasv_parse, hchr, if_pos hhead]
  refine ⟨?_, fun ptr0 hchr _ hhead => hgen ptr0 hchr hhead, ?_⟩
  · intro hno
    simp only [lwftp_data_open, pasv_parse, strchr_none p.payload '(' hno]
  · intro pre fa fb fc fd fh fl rest hp hpre hfa hfb hfc hfd hfh hfl ha hb hc hd hh hl hrest
    have hU : ∀ n, n ≤ 4294967295 → n ≤ ULONG_MAX := fun n hn => by
      simp only [ULONG_MAX]; omega
    have hfields := pasv_fields_sextet fa fb fc fd fh fl rest hfa hfb hfc hfd hfh
      hfl (hU _ ha) (hU _ hb) (hU _ hc) (hU _ hd) (hU _ hh) (hU _ hl)
      (fun d h => (hrest d h).1)
    have hchr : strchr p.payload '(' = some (sextet_fields fa fb fc fd fh fl ++ rest) := by
      have := strchr_append pre (fa ++ ',' :: (fb ++ ',' :: (fc ++ ',' :: (fd ++ ',' ::
        (fh ++ ',' :: fl)))) ++ rest) '(' hpre
      rw [hp]
      simpa [sextet_fields] using this
    apply hgen _ hchr
    rw [hfields]
    intro h
    exact (hrest ')' h).2 rfl

theorem lwftp_data_open_parse_failure_witness :
    lwftp_data_open quietEnv { freshSession with data_pcb := some 1 } []
        ⟨"227 Entering Passive Mode 10,0,0,5,200,100".toList, 41⟩ =
      (err_t.ERR_BUF, { freshSession with data_pcb := some 1 }, []) ∧
    lwftp_data_open quietEnv { freshSession with data_pcb := some 1 } []
        ⟨"227 ok (10,0,0,5,200,100".toList, 24⟩ =
      (err_t.ERR_BUF, { freshSession with data_pcb := some 1 }, []) ∧
    pasv_reads_inside "(10,0,0,5,200,x)".toList = true ∧
    lwftp_data_open quietEnv { freshSession with data_pcb := some 1 } []
        ⟨"227 ok (10,0,0,5,200,x)".toList, 23⟩ =
      (err_t.ERR_BUF, { freshSession with data_pcb := some 1 }, []) ∧
    pasv_reads_inside "(1,2,3,4,5".toList = false :=
  ⟨(lwftp_data_open_parse_failure quietEnv { freshSession with data_pcb := some 1 } []
      ⟨"227 Entering Passive Mode 10,0,0,5,200,100".toList, 41⟩).1 (by decide),
   (lwftp_data_open_parse_failure quietEnv { freshSession with data_pcb := some 1 } []
      ⟨"227 ok (10,0,0,5,200,100".toList, 24⟩).2.2 "227 ok ".toList "10".toList
      "0".toList "0".toList "5".toList "200".toList "100".toList [] (by decide)
      (by decide) (by decide) (by decide) (by decide) (by decide) (by decide) (by decide)
      (by decide) (by decide) (by decide) (by decide) (by decide) (by decide)
      (by simp),
   by decide,
   (lwftp_data_open_parse_failure quietEnv { freshSession with data_pcb := some 1 } []
      ⟨"227 ok (10,0,0,5,200,x)".toList, 23⟩).2.1 "(10,0,0,5,200,x)".toList
      (by decide) (by decide) (by decide),
   by decide⟩

/-! ## The log of a whole run -/

/-- The bytes written on a handle in two logs one after the other. -/
theorem written_append (h : Option tcp_pcb) (a b : List Event) :
    written h (a ++ b) = written h a ++ written h b := by
  induction a with
  | nil => simp [written]
  | cons e es ih =>
    cases e
    case tcp_write pcb data len res =>
      by_cases hp : pcb = h <;> simp [written, hp, ih]
    all_goals simp [written, ih]

/-- The connects issued in two logs one after the other. -/
theorem connects_append (a b : List Event) :
    connects (a ++ b) = connects a ++ connects b := by
  induction a with
  | nil => simp [connects]
  | cons e es ih => cases e <;> simp [connects, ih]

/-- The closes issued in two logs one after the other. -/
theorem closes_append (a b : List Event) :
    closes (a ++ b) = closes a ++ closes b := by
  induction a with
  | nil => simp [closes]
  | cons e es ih => cases e <;> simp [closes, ih]

/-- Opening the data connection never changes the session. -/
theorem lwftp_data_open_session (E : Env) (s : lwftp_session_t) (tr : List Event)
    (p : pbuf) : (lwftp_data_open E s tr p).2.1 = s := by
  unfold lwftp_data_open
  split <;> rfl

/-- A store that returns `ERR_OK` on an admitted session took the success
path: both handles were allocated, and the calls it appended to the log write
nothing, close nothing and connect the control connection only. -/
theorem lwftp_store_ok_inv (E : Env) (s s1 : lwftp_session_t) (tr t1 : List Event)
    (hst : s.control_state = lwftp_state_t.LWFTP_CLOSED) (hpath : s.remote_path ≠ none)
    (hc : s.control_pcb = none) (hd : s.data_pcb = none)
    (h : lwftp_store E s tr = (err_t.ERR_OK, s1, t1)) :
    ∃ c d ev, s1 = { s with control_pcb := some c, data_pcb := some d } ∧
      t1 = tr ++ ev ∧ (∀ x, written x ev = []) ∧ closes ev = [] ∧
      connects ev =
        [(some c, s.server_ip, s.server_port, Callback.lwftp_control_connected)] := by
  obtain ⟨ip, port, path, src, st, dst, cp, dp⟩ := s
  simp only at hst hpath hc hd
  subst hst hc hd
  simp only [lwftp_store] at h
  rw [if_neg (by simp [hpath])] at h
  cases hn1 : E.tcp_new tr with
  | none => simp [hn1] at h
  | some c =>
    cases hn2 : E.tcp_new (tr ++ [Event.tcp_new (some c)]) with
    | none => simp [hn1, hn2] at h
    | some d =>
      simp only [hn1, hn2] at h
      split_ifs at h with hok
      · simp only [Prod.mk.injEq] at h
        refine ⟨c, d, [Event.tcp_new (some c), Event.tcp_new (some d),
          Event.tcp_arg (some c),
          Event.tcp_err (some c) (some Callback.lwftp_control_err),
          Event.tcp_recv (some c) (some Callback.lwftp_control_recv),
          Event.tcp_sent (some c) (some Callback.lwftp_control_sent),
          Event.tcp_connect (some c) ip port Callback.lwftp_control_connected
            err_t.ERR_OK], h.2.1.symm, ?_, ?_, ?_, ?_⟩
        · rw [← h.2.2, hok]
          simp
        · intro x; simp [written]
        · simp [closes]
        · simp [connects]
      · simp only [Prod.mk.injEq] at h
        exact absurd h.1 hok

/-- A reply with the expected code in Connected, UserSent, PassSent or
TypeSent: the receive callback writes the command of that row on the control
connection and moves to the next state of the row. -/
theorem lwftp_control_recv_command (E : Env) (s : lwftp_session_t) (tr : List Event)
    (tpcb : Option tcp_pcb) (pb : pbuf) (code : Nat) (msg : String)
    (next : lwftp_state_t)
    (hrow : command_row s.control_state = some (code, msg, next))
    (hcode : response_code (some pb) = code) :
    ∃ ev, lwftp_control_recv E s tr tpcb (some pb) err_t.ERR_OK =
        some (err_t.ERR_OK, { s with control_state := next }, tr ++ ev) ∧
      written s.control_pcb ev = msg.toList ∧ connects ev = [] ∧ closes ev = [] := by
  obtain ⟨ip, port, path, src, st, dst, cp, dp⟩ := s
  cases st <;> simp [command_row] at hrow <;> obtain ⟨h1, h2, h3⟩ := hrow <;>
    subst h1 h2 h3 <;>
    exact ⟨_, by simp [lwftp_control_recv, lwftp_control_process, hcode, lwftp_send_lit,
      lwftp_send_msg]; rfl, by simp [written], by simp [connects], by simp [closes]⟩

/-- Reply 227 with a sextet of decimal fields in PasvSent: the receive
callback issues the connect of the data connection, writes the STOR command
with the remote path on the control connection and moves to StorSent. -/
theorem lwftp_control_recv_pasv (E : Env) (s : lwftp_session_t) (tr : List Event)
    (tpcb : Option tcp_pcb) (path pre fa fb fc fd fh fl post : List Char) (tot : Nat)
    (hst : s.control_state = lwftp_state_t.LWFTP_PASV_SENT)
    (hpath : s.remote_path = some path)
    (hcode : response_code
      (some ⟨pre ++ sextet fa fb fc fd fh fl ++ post, tot⟩) = 227)
    (hpre : '(' ∉ pre)
    (hfa : decimal_field fa = true) (hfb : decimal_field fb = true)
    (hfc : decimal_field fc = true) (hfd : decimal_field fd = true)
    (hfh : decimal_field fh = true) (hfl : decimal_field fl = true)
    (ha : decimal_value fa ≤ 255) (hb : decimal_value fb ≤ 255)
    (hc : decimal_value fc ≤ 255) (hd : decimal_value fd ≤ 255)
    (hh : decimal_value fh ≤ 255) (hl : decimal_value fl ≤ 255) :
    ∃ ev, lwftp_control_recv E s tr tpcb
        (some ⟨pre ++ sextet fa fb fc fd fh fl ++ post, tot⟩) err_t.ERR_OK =
        some (err_t.ERR_OK, { s with control_state := lwftp_state_t.LWFTP_STOR_SENT },
          tr ++ ev) ∧
      written s.control_pcb ev = "STOR ".toList ++ path ++ "\n".toList ∧
      connects ev = [(s.data_pcb,
        ip_addr_t.mk (decimal_value fa) (decimal_value fb) (decimal_value fc)
          (decimal_value fd),
        decimal_value fh * 256 + decimal_value fl, Callback.lwftp_data_connected)] ∧
      closes ev = [] := by
  obtain ⟨res, hopen⟩ := lwftp_data_open_sextet E s
    (tr ++ [Event.tcp_recved tpcb tot]) pre fa fb fc fd fh fl post tot hpre
    hfa hfb hfc hfd hfh hfl ha hb hc hd hh hl
  obtain ⟨ip, port, rp, src, st, dst, cp, dp⟩ := s
  simp only at hst hpath
  subst hst hpath
  exact ⟨_, by
      simp only [lwftp_control_recv, lwftp_control_process, hcode, hopen, lwftp_send_lit,
        lwftp_send_msg, data_open_calls]
      simp
      rfl, by simp [written], by simp [connects], by simp [closes]⟩

/-- The calls appended by sending the next chunk with a data handle present:
either a chunk was submitted on the data handle and nothing was closed, or the
data handle was closed and cleared; nothing is connected. -/
theorem lwftp_send_next_data_log (E : Env) (s : lwftp_session_t) (tr : List Event)
    (d : tcp_pcb) (hd : s.data_pcb = some d) :
    ∃ ev s1, lwftp_send_next_data E s tr = some (err_t.ERR_OK, s1, tr ++ ev) ∧
      connects ev = [] ∧ (∀ h, h ≠ some d → written h ev = []) ∧
      ((s1 = s ∧ closes ev = []) ∨
       (s1 = { s with data_pcb := none } ∧ closes ev = [some d])) := by
  obtain ⟨ip, port, path, src, st, dst, cp, dp⟩ := s
  simp only at hd
  subst hd
  rcases src with _ | f
  · exact ⟨_, _, by simp [lwftp_send_next_data, lwftp_pcb_close_log]; rfl,
      by simp [connects], by intro h hh; simp [written],
      Or.inr ⟨rfl, by simp [closes]⟩⟩
  · by_cases h0 : (E.data_source tr f (E.pcb_mss tr d)).2 = 0
    · exact ⟨_, _, by simp [lwftp_send_next_data, lwftp_pcb_close_log, h0]; rfl,
        by simp [connects], by intro h hh; simp [written],
        Or.inr ⟨rfl, by simp [closes]⟩⟩
    · exact ⟨_, _, by simp [lwftp_send_next_data, h0]; rfl,
        by simp [connects],
        by
          intro h hh
          have hne : ¬ (some d = h) := fun e => hh e.symm
          simp [written, hne],
        Or.inl ⟨rfl, by simp [closes]⟩⟩

/-- The calls appended by the send-acknowledgement callback with a data handle
present: as for sending the next chunk, after the notification of the data
source. -/
theorem lwftp_data_sent_log (E : Env) (s : lwftp_session_t) (tr : List Event)
    (tpcb : Option tcp_pcb) (len : Nat) (d : tcp_pcb) (hd : s.data_pcb = some d) :
    ∃ ev s1, lwftp_data_sent E s tr tpcb len = some (err_t.ERR_OK, s1, tr ++ ev) ∧
      connects ev = [] ∧ (∀ h, h ≠ some d → written h ev = []) ∧
      ((s1 = s ∧ closes ev = []) ∨
       (s1 = { s with data_pcb := none } ∧ closes ev = [some d])) := by
  obtain ⟨ip, port, path, src, st, dst, cp, dp⟩ := s
  unfold lwftp_data_sent
  rcases src with _ | f
  · exact lwftp_send_next_data_log E _ tr d hd
  · obtain ⟨ev, s1, h1, h2, h3, h4⟩ :=
      lwftp_send_next_data_log E _ (tr ++ [Event.data_source_notify f len]) d hd
    refine ⟨Event.data_source_notify f len :: ev, s1, ?_, ?_, ?_, ?_⟩
    · simp only [h1, List.append_assoc, List.singleton_append]
    · simpa [connects] using h2
    · intro h hh
      simpa [written] using h3 h hh
    · simpa [closes] using h4

/-- Reply 150 in StorSent with a data handle present: the receive callback
moves to Storing and primes the data channel, which either submits a first
chunk on the data handle or closes and clears the data handle. -/
theorem lwftp_control_recv_stor (E : Env) (s : lwftp_session_t) (tr : List Event)
    (tpcb : Option tcp_pcb) (pb : pbuf) (d : tcp_pcb)
    (hst : s.control_state = lwftp_state_t.LWFTP_STOR_SENT)
    (hd : s.data_pcb = some d)
    (hcode : response_code (some pb) = 150) :
    ∃ ev s1, lwftp_control_recv E s tr tpcb (some pb) err_t.ERR_OK =
        some (err_t.ERR_OK, s1, tr ++ ev) ∧
      connects ev = [] ∧ (∀ h, h ≠ some d → written h ev = []) ∧
      ((s1 = { s with control_state := lwftp_state_t.LWFTP_STORING } ∧ closes ev = []) ∨
       (s1 = { s with control_state := lwftp_state_t.LWFTP_STORING, data_pcb := none } ∧
        closes ev = [some d])) := by
  obtain ⟨ev, s1, h1, h2, h3, h4⟩ := lwftp_data_sent_log E
    { s with control_state := lwftp_state_t.LWFTP_STORING }
    (tr ++ [Event.tcp_recved tpcb pb.tot_len]) none 0 d hd
  have hs1 : s1.control_state = lwftp_state_t.LWFTP_STORING := by
    rcases h4 with ⟨h, _⟩ | ⟨h, _⟩ <;> rw [h]
  refine ⟨Event.tcp_recved tpcb pb.tot_len :: ev, s1, ?_, ?_, ?_, ?_⟩
  · simp [lwftp_control_recv, lwftp_control_process, hst, hcode, h1, hs1]
  · simpa [connects] using h2
  · intro h hh
    simpa [written] using h3 h hh
  · simpa [closes] using h4

/-- A reply with a code other than 0 in Storing: the receive callback writes
`QUIT\n` on the control connection and moves to QuitSent. -/
theorem lwftp_control_recv_storing (E : Env) (s : lwftp_session_t) (tr : List Event)
    (tpcb : Option tcp_pcb) (pb : pbuf)
    (hst : s.control_state = lwftp_state_t.LWFTP_STORING)
    (hcode : response_code (some pb) ≠ 0) :
    ∃ ev, lwftp_control_recv E s tr tpcb (some pb) err_t.ERR_OK =
        some (err_t.ERR_OK, { s with control_state := lwftp_state_t.LWFTP_QUIT_SENT },
          tr ++ ev) ∧
      written s.control_pcb ev = "QUIT\n".toList ∧ connects ev = [] ∧ closes ev = [] := by
  have hpos : 0 < response_code (some pb) := Nat.pos_of_ne_zero hcode
  obtain ⟨ip, port, path, src, st, dst, cp, dp⟩ := s
  simp only at hst
  subst hst
  exact ⟨_, by simp [lwftp_control_recv, lwftp_control_process, hpos, lwftp_send_lit,
    lwftp_send_msg]; rfl, by simp [written], by simp [connects], by simp [closes]⟩

/-- A reply with a code other than 0 in QuitSent: the receive callback tears
the session down. -/
theorem lwftp_control_recv_quit_sent (E : Env) (s : lwftp_session_t) (tr : List Event)
    (tpcb : Option tcp_pcb) (pb : pbuf)
    (hst : s.control_state = lwftp_state_t.LWFTP_QUIT_SENT)
    (hcode : response_code (some pb) ≠ 0) :
    ∃ ev, lwftp_control_recv E s tr tpcb (some pb) err_t.ERR_OK =
        some (err_t.ERR_OK,
          { s with data_pcb := none, control_pcb := none,
                   control_state := lwftp_state_t.LWFTP_CLOSED }, tr ++ ev) ∧
      (∀ h, written h ev = []) ∧ connects ev = [] ∧
      closes ev = (s.data_pcb.toList ++ s.control_pcb.toList).map some := by
  have hpos : 0 < response_code (some pb) := Nat.pos_of_ne_zero hcode
  obtain ⟨ev, h1, h2, h3, h4, _⟩ := lwftp_control_close_log E s
    (tr ++ [Event.tcp_recved tpcb pb.tot_len])
  refine ⟨Event.tcp_recved tpcb pb.tot_len :: ev, ?_, ?_, ?_, ?_⟩
  · simp [lwftp_control_recv, lwftp_control_process, hst, hpos, h1]
  · intro h
    simpa [written] using h3 h
  · simpa [connects] using h4
  · simpa [closes] using h2

/-- Delivering a list of replies is delivering the first and then the rest. -/
theorem deliver_cons (E : Env) (s s1 sF : lwftp_session_t) (tr t1 tF : List Event)
    (p : pbuf) (ps : List pbuf) (e : err_t) (sts : List lwftp_state_t)
    (h1 : lwftp_control_recv E s tr s.control_pcb (some p) err_t.ERR_OK = some (e, s1, t1))
    (h2 : deliver E s1 t1 ps = some (sts, sF, tF)) :
    deliver E s tr (p :: ps) = some (s1.control_state :: sts, sF, tF) := by
  simp [deliver, h1, h2]

/-- The end of the dialogue: from Storing, a reply with a code other than 0
writes `QUIT\n` and a further one tears the session down, closing the data
connection if it is still open and then the control connection. -/
theorem deliver_storing_quit (E : Env) (s : lwftp_session_t) (tr : List Event)
    (b7 b8 : pbuf) (c : tcp_pcb)
    (hst : s.control_state = lwftp_state_t.LWFTP_STORING)
    (hc : s.control_pcb = some c)
    (h7 : response_code (some b7) ≠ 0) (h8 : response_code (some b8) ≠ 0) :
    ∃ ev, deliver E s tr [b7, b8] =
        some ([lwftp_state_t.LWFTP_QUIT_SENT, lwftp_state_t.LWFTP_CLOSED],
          { s with data_pcb := none, control_pcb := none,
                   control_state := lwftp_state_t.LWFTP_CLOSED }, tr ++ ev) ∧
      written (some c) ev = "QUIT\n".toList ∧ connects ev = [] ∧
      closes ev = (s.data_pcb.toList ++ [c]).map some := by
  obtain ⟨e7, r7, w7, c7, k7⟩ := lwftp_control_recv_storing E s tr s.control_pcb b7 hst h7
  obtain ⟨e8, r8, w8, c8, k8⟩ := lwftp_control_recv_quit_sent E
    { s with control_state := lwftp_state_t.LWFTP_QUIT_SENT } (tr ++ e7) s.control_pcb b8
    rfl h8
  refine ⟨e7 ++ e8, ?_, ?_, ?_, ?_⟩
  · have hnil : ∀ x : lwftp_session_t, deliver E x (tr ++ e7 ++ e8) [] =
        some ([], x, tr ++ e7 ++ e8) := fun _ => rfl
    have h2 := deliver_cons E _ _ _ _ _ _ b8 [] _ _ r8 (hnil _)
    have h1 := deliver_cons E _ _ _ _ _ _ b7 [b8] _ _ r7 h2
    rw [h1]
    simp
  · rw [written_append, w8, ← hc, w7]
    simp
  · rw [connects_append, c7, c8]
    rfl
  · rw [closes_append, k7, k8]
    simp [hc]

/-- C2 (happy path): take an admitted session with remote path `path`, a store
that returned `ERR_OK` with two distinct handles, and the control connect
callback reporting success.  Deliver eight replies whose parsed codes are 220,
331, 230, 200, 227 (the reply carrying a sextet of decimal fields after its
first opening bracket), 150, 226 and 221.  Then the control state, Closed after
the store and Connected after the callback, is after each reply in turn
UserSent, PassSent, TypeSent, PasvSent, StorSent, Storing, QuitSent, Closed;
the session ends equal to the session before the store; the bytes submitted on
the control connection over the whole run are exactly
`USER anonymous\nPASS none@nowhere.net\nTYPE I\nPASV\nSTOR ` ++ path ++
`\nQUIT\n`; the connects issued are the control connect and then one data
connect to the endpoint of the sextet; and `tcp_close` is issued once on the
data connection and once on the control connection. -/
theorem lwftp_happy_path (E : Env) (s0 s1 : lwftp_session_t) (tr t1 : List Event)
    (path : List Char) (b1 b2 b3 b4 b6 b7 b8 : pbuf)
    (pre fa fb fc fd fh fl post : List Char) (tot : Nat)
    (hst : s0.control_state = lwftp_state_t.LWFTP_CLOSED)
    (hpath : s0.remote_path = some path)
    (hc : s0.control_pcb = none) (hd : s0.data_pcb = none)
    (hstore : lwftp_store E s0 tr = (err_t.ERR_OK, s1, t1))
    (hdist : s1.control_pcb ≠ s1.data_pcb)
    (h1 : response_code (some b1) = 220) (h2 : response_code (some b2) = 331)
    (h3 : response_code (some b3) = 230) (h4 : response_code (some b4) = 200)
    (h5 : response_code (some ⟨pre ++ sextet fa fb fc fd fh fl ++ post, tot⟩) = 227)
    (hpre : '(' ∉ pre)
    (hfa : decimal_field fa = true) (hfb : decimal_field fb = true)
    (hfc : decimal_field fc = true) (hfd : decimal_field fd = true)
    (hfh : decimal_field fh = true) (hfl : decimal_field fl = true)
    (ha : decimal_value fa ≤ 255) (hb : decimal_value fb ≤ 255)
    (hcv : decimal_value fc ≤ 255) (hdv : decimal_value fd ≤ 255)
    (hh : decimal_value fh ≤ 255) (hl : decimal_value fl ≤ 255)
    (h6 : response_code (some b6) = 150) (h7 : response_code (some b7) = 226)
    (h8 : response_code (some b8) = 221) :
    s1.control_state = lwftp_state_t.LWFTP_CLOSED ∧
    (lwftp_control_connected s1 s1.control_pcb err_t.ERR_OK).2.control_state =
      lwftp_state_t.LWFTP_CONNECTED ∧
    ∃ ev, deliver E (lwftp_control_connected s1 s1.control_pcb err_t.ERR_OK).2 t1
        [b1, b2, b3, b4, ⟨pre ++ sextet fa fb fc fd fh fl ++ post, tot⟩, b6, b7, b8] =
        some ([lwftp_state_t.LWFTP_USER_SENT, lwftp_state_t.LWFTP_PASS_SENT,
            lwftp_state_t.LWFTP_TYPE_SENT, lwftp_state_t.LWFTP_PASV_SENT,
            lwftp_state_t.LWFTP_STOR_SENT, lwftp_state_t.LWFTP_STORING,
            lwftp_state_t.LWFTP_QUIT_SENT, lwftp_state_t.LWFTP_CLOSED],
          s0, tr ++ ev) ∧
      written s1.control_pcb ev =
        "USER anonymous\nPASS none@nowhere.net\nTYPE I\nPASV\nSTOR ".toList ++ path ++
          "\nQUIT\n".toList ∧
      connects ev =
        [(s1.control_pcb, s0.server_ip, s0.server_port, Callback.lwftp_control_connected),
         (s1.data_pcb,
          ip_addr_t.mk (decimal_value fa) (decimal_value fb) (decimal_value fc)
            (decimal_value fd),
          decimal_value fh * 256 + decimal_value fl, Callback.lwftp_data_connected)] ∧
      closes ev = [s1.data_pcb, s1.control_pcb] ∧
      (closes ev).count s1.data_pcb = 1 := by
  obtain ⟨c, d, ev0, hs1, ht1, hw0, hcl0, hco0⟩ :=
    lwftp_store_ok_inv E s0 s1 tr t1 hst (by simp [hpath]) hc hd hstore
  obtain ⟨ip, port, rp, src, st, dst, cp, dp⟩ := s0
  simp only at hst hpath hc hd hs1 hco0
  subst hst hpath hc hd hs1 ht1
  have hcd : (some c : Option tcp_pcb) ≠ some d := hdist
  refine ⟨rfl, rfl, ?_⟩
  simp only [lwftp_control_connected, if_true]
  obtain ⟨e1, r1, w1, c1, k1⟩ := lwftp_control_recv_command E
    ⟨ip, port, some path, src, lwftp_state_t.LWFTP_CONNECTED, dst, some c, some d⟩
    (tr ++ ev0) (some c) b1 220 "USER anonymous\n" lwftp_state_t.LWFTP_USER_SENT rfl h1
  obtain ⟨e2, r2, w2, c2, k2⟩ := lwftp_control_recv_command E
    ⟨ip, port, some path, src, lwftp_state_t.LWFTP_USER_SENT, dst, some c, some d⟩
    (tr ++ ev0 ++ e1) (some c) b2 331 "PASS none@nowhere.net\n"
    lwftp_state_t.LWFTP_PASS_SENT rfl h2
  obtain ⟨e3, r3, w3, c3, k3⟩ := lwftp_control_recv_command E
    ⟨ip, port, some path, src, lwftp_state_t.LWFTP_PASS_SENT, dst, some c, some d⟩
    (tr ++ ev0 ++ e1 ++ e2) (some c) b3 230 "TYPE I\n" lwftp_state_t.LWFTP_TYPE_SENT rfl h3
  obtain ⟨e4, r4, w4, c4, k4⟩ := lwftp_control_recv_command E
    ⟨ip, port, some path, src, lwftp_state_t.LWFTP_TYPE_SENT, dst, some c, some d⟩
    (tr ++ ev0 ++ e1 ++ e2 ++ e3) (some c) b4 200 "PASV\n" lwftp_state_t.LWFTP_PASV_SENT
    rfl h4
  obtain ⟨e5, r5, w5, c5, k5⟩ := lwftp_control_recv_pasv E
    ⟨ip, port, some path, src, lwftp_state_t.LWFTP_PASV_SENT, dst, some c, some d⟩
    (tr ++ ev0 ++ e1 ++ e2 ++ e3 ++ e4) (some c) path pre fa fb fc fd fh fl post tot
    rfl rfl h5 hpre hfa hfb hfc hfd hfh hfl ha hb hcv hdv hh hl
  obtain ⟨e6, s6, r6, c6, w6, k6⟩ := lwftp_control_recv_stor E
    ⟨ip, port, some path, src, lwftp_state_t.LWFTP_STOR_SENT, dst, some c, some d⟩
    (tr ++ ev0 ++ e1 ++ e2 ++ e3 ++ e4 ++ e5) (some c) b6 d rfl rfl h6
  have hs6 : s6.control_state = lwftp_state_t.LWFTP_STORING ∧ s6.control_pcb = some c := by
    rcases k6 with ⟨h, _⟩ | ⟨h, _⟩ <;> rw [h] <;> exact ⟨rfl, rfl⟩
  obtain ⟨e78, r78, w78, c78, k78⟩ := deliver_storing_quit E s6
    (tr ++ ev0 ++ e1 ++ e2 ++ e3 ++ e4 ++ e5 ++ e6) b7 b8 c hs6.1 hs6.2
    (by rw [h7]; decide) (by rw [h8]; decide)
  have d6 := deliver_cons E _ _ _ _ _ _ b6 [b7, b8] _ _ r6 r78
  have d5 := deliver_cons E _ _ _ _ _ _ _ _ _ _ r5 d6
  have d4 := deliver_cons E _ _ _ _ _ _ b4 _ _ _ r4 d5
  have d3 := deliver_cons E _ _ _ _ _ _ b3 _ _ _ r3 d4
  have d2 := deliver_cons E _ _ _ _ _ _ b2 _ _ _ r2 d3
  have d1 := deliver_cons E _ _ _ _ _ _ b1 _ _ _ r1 d2
  have hfinal : ({ s6 with data_pcb := none, control_pcb := none,
                           control_state := lwftp_state_t.LWFTP_CLOSED } :
      lwftp_session_t) =
      ⟨ip, port, some path, src, lwftp_state_t.LWFTP_CLOSED, dst, none, none⟩ := by
    rcases k6 with ⟨h, _⟩ | ⟨h, _⟩ <;> rw [h]
  have hcl6 : closes e6 ++ closes e78 = [some d, some c] := by
    rcases k6 with ⟨h, k⟩ | ⟨h, k⟩ <;> rw [k, k78, h] <;> rfl
  have hw6 : written (some c) e6 = [] := w6 (some c) hcd
  refine ⟨ev0 ++ e1 ++ e2 ++ e3 ++ e4 ++ e5 ++ e6 ++ e78, ?_, ?_, ?_, ?_, ?_⟩
  · rw [d1, hs6.1, hfinal]
    simp [List.append_assoc]
  · simp only [written_append, hw0, w1, w2, w3, w4, w5, hw6, w78]
    simp
  · simp only [connects_append, hco0, c1, c2, c3, c4, c5, c6, c78]
    simp
  · simp only [closes_append, hcl0, k1, k2, k3, k4, k5, List.append_assoc, hcl6]
    simp
  · simp only [closes_append, hcl0, k1, k2, k3, k4, k5, List.append_assoc, hcl6]
    have hdc : ¬ (c = d) := fun e => hcd (by rw [e])
    simp [List.count_cons, hdc]

theorem lwftp_happy_path_witness :
    ∃ ev, deliver quietEnv
        (lwftp_control_connected (lwftp_store quietEnv freshSession []).2.1
          (lwftp_store quietEnv freshSession []).2.1.control_pcb err_t.ERR_OK).2
        (lwftp_store quietEnv freshSession []).2.2
        [⟨"220 ready".toList, 9⟩, ⟨"331 password".toList, 12⟩, ⟨"230 in".toList, 6⟩,
         ⟨"200 ok".toList, 6⟩,
         ⟨"227 passive ".toList ++
            sextet "10".toList "0".toList "0".toList "5".toList "200".toList
              "100".toList ++ [], 30⟩,
         ⟨"150 go".toList, 6⟩, ⟨"226 done".toList, 8⟩, ⟨"221 bye".toList, 7⟩] =
        some ([lwftp_state_t.LWFTP_USER_SENT, lwftp_state_t.LWFTP_PASS_SENT,
            lwftp_state_t.LWFTP_TYPE_SENT, lwftp_state_t.LWFTP_PASV_SENT,
            lwftp_state_t.LWFTP_STOR_SENT, lwftp_state_t.LWFTP_STORING,
            lwftp_state_t.LWFTP_QUIT_SENT, lwftp_state_t.LWFTP_CLOSED],
          freshSession, [] ++ ev) ∧
      written (some 0) ev =
        "USER anonymous\nPASS none@nowhere.net\nTYPE I\nPASV\nSTOR ".toList ++
          "up.bin".toList ++ "\nQUIT\n".toList ∧
      connects ev =
        [(some 0, ip_addr_t.mk 192 168 0 1, 21, Callback.lwftp_control_connected),
         (some 1, ip_addr_t.mk 10 0 0 5, 51300, Callback.lwftp_data_connected)] ∧
      closes ev = [some 1, some 0] ∧
      (closes ev).count (some 1) = 1 :=
  (lwftp_happy_path quietEnv freshSession (lwftp_store quietEnv freshSession []).2.1 []
    (lwftp_store quietEnv freshSession []).2.2 "up.bin".toList
    ⟨"220 ready".toList, 9⟩ ⟨"331 password".toList, 12⟩ ⟨"230 in".toList, 6⟩
    ⟨"200 ok".toList, 6⟩ ⟨"150 go".toList, 6⟩ ⟨"226 done".toList, 8⟩
    ⟨"221 bye".toList, 7⟩
    "227 passive ".toList "10".toList "0".toList "0".toList "5".toList "200".toList
    "100".toList [] 30 rfl rfl rfl rfl rfl (by decide) (by decide) (by decide)
    (by decide) (by decide) (by decide) (by decide) (by decide) (by decide) (by decide)
    (by decide) (by decide) (by decide) (by decide) (by decide) (by decide) (by decide)
    (by decide) (by decide) (by decide) (by decide) (by decide)).2.2

/-! ## The data channel -/

/-- C11 (end-of-data is the trigger for data-channel close): with a data
handle present, `lwftp_send_next_data` returns `ERR_OK` and leaves the control
state as it was.  When no chunk is produced (the data source is absent, or it
returns length 0) it issues `tcp_close` on the data handle and clears the
handle, submitting nothing.  Otherwise it submits exactly the chunk the data
source returned when asked with the segment size of the data connection as
maximum length, closes nothing and leaves the handle present.  So the handle
is cleared if and only if no chunk is produced. -/
theorem lwftp_send_next_data_spec (E : Env) (s : lwftp_session_t) (tr : List Event)
    (d : tcp_pcb) (hd : s.data_pcb = some d) :
    (s.data_source = none →
      ∃ ev, lwftp_send_next_data E s tr =
          some (err_t.ERR_OK, { s with data_pcb := none }, tr ++ ev) ∧
        closes ev = [some d] ∧ (∀ h, written h ev = [])) ∧
    (∀ f, s.data_source = some f → (E.data_source tr f (E.pcb_mss tr d)).2 = 0 →
      ∃ ev, lwftp_send_next_data E s tr =
          some (err_t.ERR_OK, { s with data_pcb := none }, tr ++ ev) ∧
        closes ev = [some d] ∧ (∀ h, written h ev = [])) ∧
    (∀ f, s.data_source = some f → (E.data_source tr f (E.pcb_mss tr d)).2 ≠ 0 →
      lwftp_send_next_data E s tr =
        some (err_t.ERR_OK, s, tr ++
          [Event.data_source_produce f (E.pcb_mss tr d)
            (E.data_source tr f (E.pcb_mss tr d)).1 (E.data_source tr f (E.pcb_mss tr d)).2,
           Event.tcp_write (some d) (E.data_source tr f (E.pcb_mss tr d)).1
            (E.data_source tr f (E.pcb_mss tr d)).2
            (E.tcp_write (tr ++ [Event.data_source_produce f (E.pcb_mss tr d)
              (E.data_source tr f (E.pcb_mss tr d)).1
              (E.data_source tr f (E.pcb_mss tr d)).2]) (some d)
              (E.data_source tr f (E.pcb_mss tr d)).1
              (E.data_source tr f (E.pcb_mss tr d)).2)])) ∧
    (∃ o, lwftp_send_next_data E s tr = some o ∧ o.1 = err_t.ERR_OK ∧
      o.2.1.control_state = s.control_state ∧
      (o.2.1.data_pcb = none ↔
        (s.data_source = none ∨
          ∃ f, s.data_source = some f ∧
            (E.data_source tr f (E.pcb_mss tr d)).2 = 0))) := by
  obtain ⟨ip, port, path, src, st, dst, cp, dp⟩ := s
  simp only at hd
  subst hd
  refine ⟨?_, ?_, ?_, ?_⟩
  · intro hsrc
    simp only at hsrc
    subst hsrc
    exact ⟨_, by simp [lwftp_send_next_data, lwftp_pcb_close_log]; rfl,
      by simp [closes], by intro h; simp [written]⟩
  · intro f hsrc h0
    simp only at hsrc
    subst hsrc
    exact ⟨_, by simp [lwftp_send_next_data, lwftp_pcb_close_log, h0]; rfl,
      by simp [closes], by intro h; simp [written]⟩
  · intro f hsrc h0
    simp only at hsrc
    subst hsrc
    simp [lwftp_send_next_data, h0]
  · rcases src with _ | f
    · exact ⟨_, by simp [lwftp_send_next_data]; rfl, rfl, rfl, by simp⟩
    · by_cases h0 : (E.data_source tr f (E.pcb_mss tr d)).2 = 0
      · exact ⟨_, by simp [lwftp_send_next_data, h0]; rfl, rfl, rfl, by simp [h0]⟩
      · exact ⟨_, by simp [lwftp_send_next_data, h0]; rfl, rfl, rfl, by simp [h0]⟩

theorem lwftp_send_next_data_spec_witness :
    lwftp_send_next_data streamEnv storingSession [] =
      some (err_t.ERR_OK, storingSession,
        [Event.data_source_produce 7 536 "data".toList 4,
         Event.tcp_write (some 1) "data".toList 4 err_t.ERR_OK]) :=
  (lwftp_send_next_data_spec streamEnv storingSession [] 1 rfl).2.2.1 7 rfl (by decide)

/-- The chunks submitted on a handle in two logs one after the other. -/
theorem chunks_append (h : Option tcp_pcb) (a b : List Event) :
    chunks h (a ++ b) = chunks h a ++ chunks h b := by
  induction a with
  | nil => simp [chunks]
  | cons e es ih =>
    cases e
    case tcp_write pcb data len res =>
      by_cases hp : pcb = h <;> simp [chunks, hp, ih]
    all_goals simp [chunks, ih]

/-- Sending the next chunk appends to the log, and what it appends submits at
most one chunk. -/
theorem lwftp_send_next_data_chunks (E : Env) (s : lwftp_session_t) (tr : List Event)
    (o : err_t × lwftp_session_t × List Event)
    (ho : lwftp_send_next_data E s tr = some o) :
    ∃ ev, o.2.2 = tr ++ ev ∧ ∀ h, (chunks h ev).length ≤ 1 := by
  obtain ⟨ip, port, path, src, st, dst, cp, dp⟩ := s
  unfold lwftp_send_next_data at ho
  rcases src with _ | f
  · simp [lwftp_pcb_close_log] at ho
    exact ⟨_, by rw [← ho], by intro h; simp [chunks]⟩
  · rcases dp with _ | d
    · simp at ho
    · by_cases h0 : (E.data_source tr f (E.pcb_mss tr d)).2 = 0
      · simp [h0, lwftp_pcb_close_log] at ho
        exact ⟨_, by rw [← ho], by intro h; simp [chunks]⟩
      · simp [h0] at ho
        refine ⟨_, by rw [← ho], ?_⟩
        intro h
        by_cases hh : some d = h <;> simp [chunks, hh]

/-- The send-acknowledgement callback appends to the log, and what it appends
submits at most one chunk. -/
theorem lwftp_data_sent_chunks (E : Env) (s : lwftp_session_t) (tr : List Event)
    (tpcb : Option tcp_pcb) (len : Nat) (o : err_t × lwftp_session_t × List Event)
    (ho : lwftp_data_sent E s tr tpcb len = some o) :
    ∃ ev, o.2.2 = tr ++ ev ∧ ∀ h, (chunks h ev).length ≤ 1 := by
  unfold lwftp_data_sent at ho
  split at ho
  · rename_i f _
    obtain ⟨ev, h1, h2⟩ := lwftp_send_next_data_chunks E s _ o ho
    refine ⟨Event.data_source_notify f len :: ev, by simp [h1], ?_⟩
    intro h
    simpa [chunks] using h2 h
  · exact lwftp_send_next_data_chunks E s _ o ho

/-- A run of send-acknowledgement events appends to the log, and what it
appends submits at most one chunk for each event. -/
theorem acknowledge_chunks (E : Env) (acks : List Nat) (s s2 : lwftp_session_t)
    (tr t2 : List Event) (h : acknowledge E s tr acks = some (s2, t2)) :
    ∃ ev, t2 = tr ++ ev ∧ ∀ x, (chunks x ev).length ≤ acks.length := by
  induction acks generalizing s tr with
  | nil =>
    simp [acknowledge] at h
    exact ⟨[], by simp [h.2], by intro x; simp [chunks]⟩
  | cons a as ih =>
    simp only [acknowledge] at h
    cases hs : lwftp_data_sent E s tr s.data_pcb a with
    | none => simp [hs] at h
    | some o =>
      simp only [hs] at h
      obtain ⟨e1, h1, k1⟩ := lwftp_data_sent_chunks E s tr s.data_pcb a o hs
      obtain ⟨e2, h2, k2⟩ := ih o.2.1 o.2.2 h
      refine ⟨e1 ++ e2, by rw [h2, h1, List.append_assoc], ?_⟩
      intro x
      rw [chunks_append, List.length_append, List.length_cons]
      have := k1 x
      have := k2 x
      omega

/-- A run of send-acknowledgement events is the run of its first part followed
by the run of the rest. -/
theorem acknowledge_append (E : Env) (p q : List Nat) (s : lwftp_session_t)
    (tr : List Event) :
    acknowledge E s tr (p ++ q) =
      match acknowledge E s tr p with
      | none => none
      | some o => acknowledge E o.1 o.2 q := by
  induction p generalizing s tr with
  | nil => simp [acknowledge]
  | cons a as ih =>
    simp only [List.cons_append, acknowledge]
    cases lwftp_data_sent E s tr s.data_pcb a with
    | none => rfl
    | some o => exact ih o.2.1 o.2.2

/-- A chunk list has no more chunks outstanding than it has chunks. -/
theorem outstanding_le_length (l : List Nat) (acked : Nat) :
    outstanding l acked ≤ l.length := by
  induction l generalizing acked with
  | nil => simp [outstanding]
  | cons c cs ih =>
    simp only [outstanding, List.length_cons]
    split_ifs
    · have := ih (acked - c)
      omega
    · omega

/-- Chunks whose bytes are all acknowledged are not outstanding. -/
theorem outstanding_append (l l2 : List Nat) (acked : Nat) (h : l.sum ≤ acked) :
    outstanding (l ++ l2) acked = outstanding l2 (acked - l.sum) := by
  induction l generalizing acked with
  | nil => simp
  | cons c cs ih =>
    simp only [List.sum_cons] at h
    have hc : c ≤ acked := by omega
    have e := ih (acked - c) (by omega)
    have e2 : acked - c - cs.sum = acked - (c + cs.sum) := by omega
    rw [e2] at e
    simpa [outstanding, hc] using e

/-- Reply 150 in StorSent is the priming of the data channel: the step is the
send-acknowledgement callback with count 0, run in Storing. -/
theorem lwftp_control_process_prime (E : Env) (s : lwftp_session_t) (tr : List Event)
    (tpcb : Option tcp_pcb) (pb : pbuf)
    (hst : s.control_state = lwftp_state_t.LWFTP_STOR_SENT)
    (hcode : response_code (some pb) = 150) :
    lwftp_control_process E s tr tpcb (some pb) =
      match lwftp_data_sent E
        { s with control_state := lwftp_state_t.LWFTP_STORING } tr none 0 with
      | none => none
      | some o => some (o.2.1, o.2.2) := by
  cases hds : lwftp_data_sent E
      { s with control_state := lwftp_state_t.LWFTP_STORING } tr none 0 with
  | none => simp [lwftp_control_process, hst, hcode, hds]
  | some o =>
    obtain ⟨-, h | h⟩ := lwftp_data_sent_session E _ tr none 0 o hds <;>
      simp [lwftp_control_process, hst, hcode, hds, h]

/-- C12, as the code has it (flow-control bound): prime the data channel with
reply 150 in StorSent, with no chunk submitted before, and deliver any sequence
of send-acknowledgement events with arbitrary byte counts.  Each event, the
priming included, submits at most one chunk, so after `n` events at most
`n + 1` chunks have been submitted.  When every event acknowledges at least
all the bytes submitted before it and not acknowledged yet, at every instant
(after the priming and after each event) at most one chunk has been submitted
and is not wholly acknowledged. -/
theorem lwftp_data_flow_bound (E : Env) (s s1 : lwftp_session_t) (tr t1 : List Event)
    (tpcb : Option tcp_pcb) (pb : pbuf) (h : Option tcp_pcb) (acks : List Nat)
    (hst : s.control_state = lwftp_state_t.LWFTP_STOR_SENT)
    (hcode : response_code (some pb) = 150)
    (h0 : chunks h tr = [])
    (hprime : lwftp_control_process E s tr tpcb (some pb) = some (s1, t1)) :
    (∀ n s2 t2, acknowledge E s1 t1 (acks.take n) = some (s2, t2) →
      (chunks h t2).length ≤ 1 + n) ∧
    ((∀ n s2 t2, n < acks.length → acknowledge E s1 t1 (acks.take n) = some (s2, t2) →
        (chunks h t2).sum ≤ (acks.take n).sum + acks.getD n 0) →
      ∀ n s2 t2, acknowledge E s1 t1 (acks.take n) = some (s2, t2) →
        outstanding (chunks h t2) (acks.take n).sum ≤ 1) := by
  have hp := lwftp_control_process_prime E s tr tpcb pb hst hcode
  rw [hprime] at hp
  cases hds : lwftp_data_sent E
      { s with control_state := lwftp_state_t.LWFTP_STORING } tr none 0 with
  | none => simp [hds] at hp
  | some o =>
    simp only [hds, Option.some.injEq, Prod.mk.injEq] at hp
    obtain ⟨e0, he0, k0⟩ := lwftp_data_sent_chunks E _ tr none 0 o hds
    have ht1 : t1 = tr ++ e0 := by rw [hp.2, he0]
    have hc1 : (chunks h t1).length ≤ 1 := by
      rw [ht1, chunks_append, h0]
      simpa using k0 h
    refine ⟨?_, ?_⟩
    · intro n s2 t2 hrun
      obtain ⟨ev, hev, kev⟩ := acknowledge_chunks E _ s1 s2 t1 t2 hrun
      rw [hev, chunks_append, List.length_append]
      have h1 := kev h
      have h2 : (acks.take n).length ≤ n := by simp
      omega
    · intro hcover n
      induction n with
      | zero =>
        intro s2 t2 hrun
        simp [acknowledge] at hrun
        rw [← hrun.2]
        exact le_trans (outstanding_le_length _ _) hc1
      | succ m ih =>
        intro s2 t2 hrun
        by_cases hm : m < acks.length
        · have htake : acks.take (m + 1) = acks.take m ++ [acks.getD m 0] := by
            rw [List.take_succ, List.getD_eq_getElem?_getD, List.getElem?_eq_getElem hm]
            rfl
          have hcov := hcover m
          generalize acks.getD m 0 = a at htake hcov
          rw [htake, acknowledge_append] at hrun
          cases hpre : acknowledge E s1 t1 (acks.take m) with
          | none => simp [hpre] at hrun
          | some r =>
            obtain ⟨s3, t3⟩ := r
            simp only [hpre, acknowledge] at hrun
            cases hstep : lwftp_data_sent E s3 t3 s3.data_pcb a with
            | none => simp [hstep] at hrun
            | some q =>
              simp only [hstep, Option.some.injEq, Prod.mk.injEq] at hrun
              obtain ⟨e, he, ke⟩ := lwftp_data_sent_chunks E s3 t3 _ _ q hstep
              have hsum := hcov s3 t3 hm hpre
              rw [← hrun.2, he, chunks_append, htake, List.sum_append]
              simp only [List.sum_cons, List.sum_nil, Nat.add_zero]
              rw [outstanding_append _ _ _ hsum]
              exact le_trans (outstanding_le_length _ _) (ke h)
        · have htake : acks.take (m + 1) = acks.take m := by
            rw [List.take_of_length_le (by omega), List.take_of_length_le (by omega)]
          rw [htake] at hrun ⊢
          exact ih s2 t2 hrun

theorem lwftp_data_flow_bound_witness :
    lwftp_control_process streamEnv storSentSession [] (some 0)
        (some ⟨"150 go".toList, 6⟩) = some (storingSession, primedLog) ∧
    ∃ s2 t2, acknowledge streamEnv storingSession primedLog [4, 4] = some (s2, t2) ∧
      chunks (some 1) t2 = [4, 4, 4] ∧
      outstanding (chunks (some 1) t2) 8 ≤ 1 :=
  ⟨rfl, _, _, rfl, rfl,
    (lwftp_data_flow_bound streamEnv storSentSession storingSession [] primedLog (some 0)
      ⟨"150 go".toList, 6⟩ (some 1) [4, 4] rfl (by decide) rfl rfl).2
      (by
        intro n s2 t2 hn hrun
        simp only [List.length_cons, List.length_nil] at hn
        interval_cases n
        · cases hrun
          decide
        · cases hrun
          decide)
      2 _ _ rfl⟩

/-- C12, as the claim states it, fails: after the priming has submitted a
chunk of four bytes, a send-acknowledgement event that acknowledges one byte
makes the code submit a second chunk, and two chunks are then submitted and
not wholly acknowledged. -/
theorem lwftp_data_flow_two_outstanding :
    lwftp_control_process streamEnv storSentSession [] (some 0)
        (some ⟨"150 go".toList, 6⟩) = some (storingSession, primedLog) ∧
    ∃ s2 t2, acknowledge streamEnv storingSession primedLog [1] = some (s2, t2) ∧
      chunks (some 1) t2 = [4, 4] ∧
      outstanding (chunks (some 1) t2) 1 = 2 :=
  ⟨rfl, _, _, rfl, rfl, rfl⟩

/-- C13 (data-channel error callback): the code does not clear the handle.
`lwftp_data_err` returns every session as it was, so on a session that holds
data handle 1 the handle is still 1 after the callback. -/
theorem lwftp_data_err_keeps_handle :
    (∀ (s : lwftp_session_t) (e : err_t), lwftp_data_err s e = s) ∧
    (lwftp_data_err storingSession err_t.ERR_ABRT).data_pcb = some 1 :=
  ⟨fun _ _ => rfl, rfl⟩

/-- A reply without an opening bracket, or whose text after the sixth field
read does not begin with a closing bracket, makes `lwftp_data_open` return
`ERR_BUF` with the session and the log unchanged. -/
theorem lwftp_data_open_err_buf (E : Env) (s : lwftp_session_t) (tr : List Event)
    (p : pbuf)
    (hbad : '(' ∉ p.payload ∨ ∃ ptr0, strchr p.payload '(' = some ptr0 ∧
      (pasv_fields ptr0).2.head? ≠ some ')') :
    lwftp_data_open E s tr p = (err_t.ERR_BUF, s, tr) := by
  rcases hbad with hno | ⟨ptr0, hchr, hhead⟩
  · simp only [lwftp_data_open, pasv_parse, strchr_none p.payload '(' hno]
  · simp only [lwftp_data_open, pasv_parse, hchr, if_pos hhead]

/-- C14 (malformed PASV): the code does not go to Quit.  In PasvSent, on a
reply with code 227 that has no opening bracket, or no closing bracket right
after the sixth field, the step drops the `ERR_BUF` that `lwftp_data_open`
returns: it writes the STOR command with the remote path on the control
connection, issues no connect, writes no QUIT and ends in StorSent. -/
theorem lwftp_malformed_pasv_still_stor (E : Env) (s : lwftp_session_t)
    (tr : List Event) (tpcb : Option tcp_pcb) (pb : pbuf) (path : List Char)
    (hst : s.control_state = lwftp_state_t.LWFTP_PASV_SENT)
    (hpath : s.remote_path = some path)
    (hcode : response_code (some pb) = 227)
    (hbad : '(' ∉ pb.payload ∨ ∃ ptr0, strchr pb.payload '(' = some ptr0 ∧
      (pasv_fields ptr0).2.head? ≠ some ')') :
    ∃ ev, lwftp_control_process E s tr tpcb (some pb) =
        some ({ s with control_state := lwftp_state_t.LWFTP_STOR_SENT }, tr ++ ev) ∧
      ev = [Event.tcp_write s.control_pcb "STOR ".toList 5
              (E.tcp_write tr s.control_pcb "STOR ".toList 5),
            Event.tcp_write s.control_pcb path path.length
              (E.tcp_write (tr ++ [Event.tcp_write s.control_pcb "STOR ".toList 5
                (E.tcp_write tr s.control_pcb "STOR ".toList 5)]) s.control_pcb path
                path.length),
            Event.tcp_write s.control_pcb "\n".toList 1
              (E.tcp_write (tr ++ [Event.tcp_write s.control_pcb "STOR ".toList 5
                (E.tcp_write tr s.control_pcb "STOR ".toList 5),
                Event.tcp_write s.control_pcb path path.length
                  (E.tcp_write (tr ++ [Event.tcp_write s.control_pcb "STOR ".toList 5
                    (E.tcp_write tr s.control_pcb "STOR ".toList 5)]) s.control_pcb path
                    path.length)]) s.control_pcb "\n".toList 1)] ∧
      written s.control_pcb ev = "STOR ".toList ++ path ++ "\n".toList ∧
      connects ev = [] := by
  have hopen := lwftp_data_open_err_buf E s tr pb hbad
  obtain ⟨ip, port, rp, src, st, dst, cp, dp⟩ := s
  simp only at hst hpath
  subst hst hpath
  refine ⟨_, ?_, rfl, by simp [written], by simp [connects]⟩
  simp only [lwftp_control_process, hcode, hopen, lwftp_send_lit, lwftp_send_msg]
  simp

theorem lwftp_malformed_pasv_still_stor_witness :
    ∃ ev, lwftp_control_process quietEnv pasvSentSession [] (some 0)
        (some ⟨"227 Entering Passive Mode".toList, 25⟩) =
        some ({ pasvSentSession with control_state := lwftp_state_t.LWFTP_STOR_SENT },
          [] ++ ev) ∧
      ev = [Event.tcp_write (some 0) "STOR ".toList 5 err_t.ERR_OK,
            Event.tcp_write (some 0) "up.bin".toList 6 err_t.ERR_OK,
            Event.tcp_write (some 0) "\n".toList 1 err_t.ERR_OK] ∧
      written (some 0) ev = "STOR ".toList ++ "up.bin".toList ++ "\n".toList ∧
      connects ev = [] :=
  lwftp_malformed_pasv_still_stor quietEnv pasvSentSession [] (some 0)
    ⟨"227 Entering Passive Mode".toList, 25⟩ "up.bin".toList rfl rfl (by decide)
    (Or.inl (by decide))

/-- C15 (no-op events): for a session whose control state is not Quit, when
the parsed reply code is 0 or the control state is Closed, the processing step
returns the session and the log as they were: no field changes, nothing is
written and no data-channel call is made. -/
theorem lwftp_control_process_noop (E : Env) (s : lwftp_session_t) (tr : List Event)
    (tpcb : Option tcp_pcb) (p : Option pbuf)
    (hq : s.control_state ≠ lwftp_state_t.LWFTP_QUIT)
    (h : response_code p = 0 ∨ s.control_state = lwftp_state_t.LWFTP_CLOSED) :
    lwftp_control_process E s tr tpcb p = some (s, tr) := by
  obtain ⟨ip, port, rp, src, st, dst, cp, dp⟩ := s
  simp only at hq h
  rcases h with h | h
  · cases st <;> simp [lwftp_control_process, h] at hq ⊢
  · subst h
    simp [lwftp_control_process]

theorem lwftp_control_process_noop_witness :
    lwftp_control_process quietEnv pasvSentSession [] (some 0)
        (some ⟨"Entering Passive Mode".toList, 21⟩) = some (pasvSentSession, []) :=
  lwftp_control_process_noop quietEnv pasvSentSession [] (some 0)
    (some ⟨"Entering Passive Mode".toList, 21⟩) (by decide) (Or.inl (by decide))

/-! ## Frame properties and reachable sessions -/

/-- A processing step changes at most the control state and the two handles:
the server address and port, the remote path, the data source and the data
state are what they were. -/
theorem lwftp_control_process_frame (E : Env) (s : lwftp_session_t) (tr : List Event)
    (tpcb : Option tcp_pcb) (p : Option pbuf) (o : lwftp_session_t × List Event)
    (h : lwftp_control_process E s tr tpcb p = some o) :
    o.1.server_ip = s.server_ip ∧ o.1.server_port = s.server_port ∧
    o.1.remote_path = s.remote_path ∧ o.1.data_source = s.data_source ∧
    o.1.data_state = s.data_state := by
  obtain ⟨ip, port, path, src, st, dst, cp, dp⟩ := s
  cases st
  case LWFTP_STOR_SENT =>
    simp only [lwftp_control_process] at h
    split_ifs at h with h1 h2
    · cases hds : lwftp_data_sent E
          { server_ip := ip, server_port := port, remote_path := path, data_source := src,
            control_state := lwftp_state_t.LWFTP_STORING, data_state := dst,
            control_pcb := cp, data_pcb := dp } tr none 0 with
      | none => simp [hds] at h
      | some r =>
        obtain ⟨_, hr | hr⟩ := lwftp_data_sent_session E _ tr none 0 r hds
        all_goals (simp [hds, hr] at h; rw [← h]; simp)
    · simp at h; rw [← h]; simp
    · simp at h; rw [← h]; simp
  case LWFTP_PASV_SENT =>
    simp only [lwftp_control_process] at h
    split_ifs at h with h1 h2
    · rcases p with _ | pb <;> rcases path with _ | pa <;> simp at h
      rw [← h]
      simp [lwftp_data_open_session]
    · simp at h; rw [← h]; simp
    · simp at h; rw [← h]; simp
  all_goals
    simp only [lwftp_control_process, lwftp_control_close] at h
    split_ifs at h <;> simp at h <;> rw [← h] <;> simp

/-- A store leaves the data state as it was, on each of its exits. -/
theorem lwftp_store_data_state (E : Env) (s : lwftp_session_t) (tr : List Event) :
    (lwftp_store E s tr).2.1.data_state = s.data_state := by
  unfold lwftp_store
  split_ifs with hg
  · rfl
  · cases hn1 : E.tcp_new tr with
    | none => simp
    | some c =>
      cases hn2 : E.tcp_new (tr ++ [Event.tcp_new (some c)]) with
      | none => simp [hn2, lwftp_control_close]
      | some d =>
        simp only [hn2]
        split_ifs <;> simp [lwftp_control_close]

/-- No entry point other than a data connect callback that reports success
changes the data state, and that one sets it to Connected. -/
theorem dispatch_data_state (E : Env) (c : Call) (s s1 : lwftp_session_t)
    (tr t1 : List Event) (h : dispatch E c s tr = some (s1, t1)) :
    (is_data_connect_ok c = true → s1.data_state = lwftp_state_t.LWFTP_CONNECTED) ∧
    (is_data_connect_ok c = false → s1.data_state = s.data_state) := by
  cases c with
  | store =>
    simp only [dispatch, Option.some.injEq] at h
    refine ⟨by simp [is_data_connect_ok], fun _ => ?_⟩
    have : s1 = (lwftp_store E s tr).2.1 := by rw [h]
    rw [this]
    exact lwftp_store_data_state E s tr
  | control_connected tpcb err =>
    simp only [dispatch, lwftp_control_connected, Option.some.injEq, Prod.mk.injEq] at h
    refine ⟨by simp [is_data_connect_ok], fun _ => ?_⟩
    rw [← h.1]
    split_ifs <;> rfl
  | control_recv tpcb p err =>
    refine ⟨by simp [is_data_connect_ok], fun _ => ?_⟩
    simp only [dispatch] at h
    cases hr : lwftp_control_recv E s tr tpcb p err with
    | none => simp [hr] at h
    | some o =>
      simp only [hr, Option.some.injEq] at h
      have hs1 : s1 = o.2.1 := by rw [h]
      unfold lwftp_control_recv at hr
      split_ifs at hr with he
      · rcases p with _ | pb
        · simp at hr
          rw [hs1, ← hr]
          rfl
        · simp only at hr
          cases hp : lwftp_control_process E s (tr ++ [Event.tcp_recved tpcb pb.tot_len])
              tpcb (some pb) with
          | none => simp [hp] at hr
          | some r =>
            simp [hp] at hr
            rw [hs1, ← hr]
            exact (lwftp_control_process_frame E s _ tpcb (some pb) r hp).2.2.2.2
      · simp at hr
        rw [hs1, ← hr]
        rfl
  | control_sent tpcb len =>
    simp only [dispatch, lwftp_control_sent, Option.some.injEq, Prod.mk.injEq] at h
    exact ⟨by simp [is_data_connect_ok], fun _ => by rw [← h.1]⟩
  | control_err err =>
    simp only [dispatch, lwftp_control_err, Option.some.injEq, Prod.mk.injEq] at h
    exact ⟨by simp [is_data_connect_ok], fun _ => by rw [← h.1]⟩
  | data_connected tpcb err =>
    simp only [dispatch, lwftp_data_connected, Option.some.injEq, Prod.mk.injEq] at h
    cases err <;> simp [is_data_connect_ok] <;> rw [← h.1] <;> simp
  | data_recv tpcb p err =>
    simp only [dispatch, lwftp_data_recv, Option.some.injEq, Prod.mk.injEq] at h
    exact ⟨by simp [is_data_connect_ok], fun _ => by rw [← h.1]⟩
  | data_sent tpcb len =>
    refine ⟨by simp [is_data_connect_ok], fun _ => ?_⟩
    simp only [dispatch] at h
    cases hr : lwftp_data_sent E s tr tpcb len with
    | none => simp [hr] at h
    | some o =>
      simp only [hr, Option.some.injEq] at h
      have hs1 : s1 = o.2.1 := by rw [h]
      obtain ⟨_, hh | hh⟩ := lwftp_data_sent_session E s tr tpcb len o hr <;>
        rw [hs1, hh]
  | data_err err =>
    simp only [dispatch, lwftp_data_err, Option.some.injEq, Prod.mk.injEq] at h
    exact ⟨by simp [is_data_connect_ok], fun _ => by rw [← h.1]⟩

/-- C16, as the code has it (data state): along every sequence of entry points
run from any session, and so from an initial one, the data state is what it
was at the start as long as no data connect callback has reported success, and
it is Connected once one has; no entry point sets it back to Closed, whether
the data connection has been closed or not. -/
theorem lwftp_data_state_lifecycle (E : Env) (calls : List Call)
    (s s1 : lwftp_session_t) (tr t1 : List Event)
    (h : run E calls s tr = some (s1, t1)) :
    (calls.any is_data_connect_ok = false → s1.data_state = s.data_state) ∧
    (calls.any is_data_connect_ok = true →
      s1.data_state = lwftp_state_t.LWFTP_CONNECTED) := by
  induction calls generalizing s tr with
  | nil =>
    simp only [run, Option.some.injEq, Prod.mk.injEq] at h
    exact ⟨fun _ => by rw [h.1], by simp⟩
  | cons c cs ih =>
    simp only [run] at h
    cases hd : dispatch E c s tr with
    | none => simp [hd] at h
    | some o =>
      obtain ⟨s2, t2⟩ := o
      simp only [hd] at h
      obtain ⟨k1, k2⟩ := dispatch_data_state E c s s2 tr t2 hd
      obtain ⟨i1, i2⟩ := ih s2 t2 h
      refine ⟨?_, ?_⟩
      · intro hany
        simp only [List.any_cons, Bool.or_eq_false_iff] at hany
        rw [i1 hany.2, k2 hany.1]
      · intro hany
        by_cases hcs : cs.any is_data_connect_ok = true
        · exact i2 hcs
        · simp only [Bool.not_eq_true] at hcs
          simp only [List.any_cons, hcs, Bool.or_false] at hany
          rw [i1 hcs, k1 hany]

theorem lwftp_data_state_lifecycle_witness :
    ∃ s1 t1, run quietEnv uploadCalls freshSession [] = some (s1, t1) ∧
      s1.data_state = lwftp_state_t.LWFTP_CONNECTED :=
  ⟨_, _, rfl,
    (lwftp_data_state_lifecycle quietEnv uploadCalls freshSession _ [] _ rfl).2
      (by decide)⟩

/-- C16, as the claim states it, fails: in the upload of `uploadCalls`, run
from the initial session, the data connect callback reports success and the
data source is at its end at the reply 150; the data connection is then
closed, its handle is null, and the data state is still Connected. -/
theorem lwftp_data_state_stays_connected :
    freshSession.control_state = lwftp_state_t.LWFTP_CLOSED ∧
    freshSession.data_state = lwftp_state_t.LWFTP_CLOSED ∧
    ∃ s1 t1, run quietEnv uploadCalls freshSession [] = some (s1, t1) ∧
      closes t1 = [some 1] ∧ s1.data_pcb = none ∧
      s1.data_state = lwftp_state_t.LWFTP_CONNECTED :=
  ⟨rfl, rfl, _, _, rfl, rfl, rfl, rfl⟩

/-- C17, as the code has it (first chunk): the data connect callback makes no
call to the data source or to the transport, whatever status it reports; it
sets the data state to Connected when the status is `ERR_OK` and changes
nothing otherwise.  The first chunk is asked for at the reply 150 in StorSent:
with a data source and a data handle present, that step notifies the data
source of 0 bytes and asks it for a chunk of at most the segment size of the
data connection. -/
theorem lwftp_first_chunk_on_reply_150 (E : Env) (s : lwftp_session_t) (tr : List Event)
    (tpcb : Option tcp_pcb) :
    dispatch E (Call.data_connected tpcb err_t.ERR_OK) s tr =
      some ({ s with data_state := lwftp_state_t.LWFTP_CONNECTED }, tr) ∧
    (∀ e, e ≠ err_t.ERR_OK → dispatch E (Call.data_connected tpcb e) s tr = some (s, tr)) ∧
    (∀ pb f d, s.control_state = lwftp_state_t.LWFTP_STOR_SENT →
      response_code (some pb) = 150 → s.data_source = some f → s.data_pcb = some d →
      ∃ s1 ev, lwftp_control_process E s tr tpcb (some pb) =
        some (s1, tr ++ Event.data_source_notify f 0 ::
          Event.data_source_produce f (E.pcb_mss (tr ++ [Event.data_source_notify f 0]) d)
            (E.data_source (tr ++ [Event.data_source_notify f 0]) f
              (E.pcb_mss (tr ++ [Event.data_source_notify f 0]) d)).1
            (E.data_source (tr ++ [Event.data_source_notify f 0]) f
              (E.pcb_mss (tr ++ [Event.data_source_notify f 0]) d)).2 :: ev)) := by
  refine ⟨by simp [dispatch, lwftp_data_connected], ?_, ?_⟩
  · intro e he
    simp [dispatch, lwftp_data_connected, he]
  · intro pb f d hst hcode hsrc hd
    rw [lwftp_control_process_prime E s tr tpcb pb hst hcode]
    obtain ⟨ip, port, path, src, st, dst, cp, dp⟩ := s
    simp only at hsrc hd
    subst hsrc hd
    by_cases h0 : (E.data_source (tr ++ [Event.data_source_notify f 0]) f
        (E.pcb_mss (tr ++ [Event.data_source_notify f 0]) d)).2 = 0
    · exact ⟨_, _, by
        simp [lwftp_data_sent, lwftp_send_next_data, h0, lwftp_pcb_close_log]
        exact ⟨rfl, rfl⟩⟩
    · exact ⟨_, _, by
        simp [lwftp_data_sent, lwftp_send_next_data, h0]
        exact ⟨rfl, rfl⟩⟩

theorem lwftp_first_chunk_on_reply_150_witness :
    ∃ s1 ev, lwftp_control_process streamEnv storSentSession [] (some 0)
        (some ⟨"150 go".toList, 6⟩) =
      some (s1, [] ++ Event.data_source_notify 7 0 ::
        Event.data_source_produce 7 536 "data".toList 4 :: ev) :=
  (lwftp_first_chunk_on_reply_150 streamEnv storSentSession [] (some 0)).2.2
    ⟨"150 go".toList, 6⟩ 7 1 rfl (by decide) rfl rfl

/-- C17, as the claim states it, fails: on a session with a data source and a
data handle, the data connect callback reporting success sets the data state
and leaves the log empty, so it asks the data source for no chunk and submits
none. -/
theorem lwftp_data_connected_requests_no_chunk :
    storSentSession.data_source = some 7 ∧ storSentSession.data_pcb = some 1 ∧
    dispatch streamEnv (Call.data_connected (some 1) err_t.ERR_OK) storSentSession [] =
      some ({ storSentSession with data_state := lwftp_state_t.LWFTP_CONNECTED }, []) :=
  ⟨rfl, rfl, rfl⟩

/-- The control state after a processing step, for a start other than Quit:
the start, its immediate successor, QuitSent or Closed; it is never Quit and
never an earlier state other than Closed. -/
theorem lwftp_control_process_state (E : Env) (s : lwftp_session_t) (tr : List Event)
    (tpcb : Option tcp_pcb) (p : Option pbuf) (o : lwftp_session_t × List Event)
    (hq : s.control_state ≠ lwftp_state_t.LWFTP_QUIT)
    (h : lwftp_control_process E s tr tpcb p = some o) :
    (o.1.control_state = s.control_state ∨
      o.1.control_state = next_state s.control_state ∨
      o.1.control_state = lwftp_state_t.LWFTP_QUIT_SENT ∨
      o.1.control_state = lwftp_state_t.LWFTP_CLOSED) ∧
    o.1.control_state ≠ lwftp_state_t.LWFTP_QUIT ∧
    (o.1.control_state = lwftp_state_t.LWFTP_CLOSED ∨
      state_rank s.control_state ≤ state_rank o.1.control_state) := by
  obtain ⟨ip, port, path, src, st, dst, cp, dp⟩ := s
  cases st
  case LWFTP_QUIT => exact absurd rfl hq
  case LWFTP_STOR_SENT =>
    simp only [lwftp_control_process] at h
    split_ifs at h with h1 h2
    · cases hds : lwftp_data_sent E
          { server_ip := ip, server_port := port, remote_path := path, data_source := src,
            control_state := lwftp_state_t.LWFTP_STORING, data_state := dst,
            control_pcb := cp, data_pcb := dp } tr none 0 with
      | none => simp [hds] at h
      | some r =>
        obtain ⟨_, hr | hr⟩ := lwftp_data_sent_session E _ tr none 0 r hds
        all_goals (simp [hds, hr] at h; rw [← h]; simp [next_state, state_rank])
    · simp at h; rw [← h]; simp [next_state, state_rank]
    · simp at h; rw [← h]; simp [next_state, state_rank]
  case LWFTP_PASV_SENT =>
    simp only [lwftp_control_process] at h
    split_ifs at h with h1 h2
    · rcases p with _ | pb <;> rcases path with _ | pa <;> simp at h
      rw [← h]
      simp [next_state, state_rank]
    · simp at h; rw [← h]; simp [next_state, state_rank]
    · simp at h; rw [← h]; simp [next_state, state_rank]
  all_goals
    simp only [lwftp_control_process, lwftp_control_close] at h
    split_ifs at h <;> simp at h <;> rw [← h] <;> simp [next_state, state_rank]

/-- A processing step returns whenever the remote path is set and either the
data handle is present or there is no data source: no null pointer is read. -/
theorem lwftp_control_process_defined (E : Env) (s : lwftp_session_t) (tr : List Event)
    (tpcb : Option tcp_pcb) (p : Option pbuf)
    (hpath : s.remote_path ≠ none)
    (hdata : s.data_pcb ≠ none ∨ s.data_source = none) :
    ∃ o, lwftp_control_process E s tr tpcb p = some o := by
  obtain ⟨ip, port, path, src, st, dst, cp, dp⟩ := s
  simp only at hpath hdata
  cases st
  case LWFTP_STOR_SENT =>
    by_cases hc : response_code p = 150
    · have hds : ∃ r, lwftp_data_sent E
          { server_ip := ip, server_port := port, remote_path := path, data_source := src,
            control_state := lwftp_state_t.LWFTP_STORING, data_state := dst,
            control_pcb := cp, data_pcb := dp } tr none 0 = some r := by
        rcases src with _ | f
        · exact ⟨_, by simp [lwftp_data_sent, lwftp_send_next_data]; rfl⟩
        · rcases dp with _ | d
          · simp at hdata
          · obtain ⟨ev, s1, h1, _⟩ := lwftp_data_sent_log E
              { server_ip := ip, server_port := port, remote_path := path,
                data_source := some f, control_state := lwftp_state_t.LWFTP_STORING,
                data_state := dst, control_pcb := cp, data_pcb := some d } tr none 0 d rfl
            exact ⟨_, h1⟩
      obtain ⟨r, hr⟩ := hds
      obtain ⟨_, hh | hh⟩ := lwftp_data_sent_session E _ tr none 0 r hr <;>
        exact ⟨_, by simp [lwftp_control_process, hc, hr, hh]; rfl⟩
    · simp only [lwftp_control_process, hc, if_false]
      split_ifs <;> simp
  case LWFTP_PASV_SENT =>
    rcases path with _ | pa
    · exact absurd rfl hpath
    · rcases p with _ | pb
      · simp [lwftp_control_process, response_code]
      · simp only [lwftp_control_process]
        split_ifs <;> simp
  all_goals
    simp only [lwftp_control_process, lwftp_control_close]
    split_ifs <;> simp

/-- C18 (shape of the control step): for a session whose control state is not
Quit and any delivered buffer, a processing step that returns ends in the
state it started in, in the immediate successor of that state in the order
Closed, Connected, UserSent, PassSent, TypeSent, PasvSent, StorSent, Storing,
Quit, QuitSent, in QuitSent, or in Closed; it never ends in Quit, and it never
ends in an earlier state other than Closed.  The step returns for every
session whose remote path is set and that has a data handle or no data
source. -/
theorem lwftp_control_process_shape (E : Env) (s : lwftp_session_t) (tr : List Event)
    (tpcb : Option tcp_pcb) (p : Option pbuf)
    (hq : s.control_state ≠ lwftp_state_t.LWFTP_QUIT) :
    (∀ o, lwftp_control_process E s tr tpcb p = some o →
      (o.1.control_state = s.control_state ∨
        o.1.control_state = next_state s.control_state ∨
        o.1.control_state = lwftp_state_t.LWFTP_QUIT_SENT ∨
        o.1.control_state = lwftp_state_t.LWFTP_CLOSED) ∧
      o.1.control_state ≠ lwftp_state_t.LWFTP_QUIT ∧
      (o.1.control_state = lwftp_state_t.LWFTP_CLOSED ∨
        state_rank s.control_state ≤ state_rank o.1.control_state)) ∧
    (s.remote_path ≠ none → (s.data_pcb ≠ none ∨ s.data_source = none) →
      ∃ o, lwftp_control_process E s tr tpcb p = some o) :=
  ⟨fun o h => lwftp_control_process_state E s tr tpcb p o hq h,
   fun hpath hdata => lwftp_control_process_defined E s tr tpcb p hpath hdata⟩

theorem lwftp_control_process_shape_witness :
    ∃ o, lwftp_control_process quietEnv pasvSentSession [] (some 0)
        (some ⟨"227 passive (10,0,0,5,200,100)".toList, 30⟩) = some o ∧
      o.1.control_state ≠ lwftp_state_t.LWFTP_QUIT ∧
      (o.1.control_state = lwftp_state_t.LWFTP_CLOSED ∨
        state_rank pasvSentSession.control_state ≤ state_rank o.1.control_state) :=
  (lwftp_control_process_shape quietEnv pasvSentSession [] (some 0)
    (some ⟨"227 passive (10,0,0,5,200,100)".toList, 30⟩) (by decide)).elim
    fun hshape hdef => (hdef (by decide) (Or.inl (by decide))).elim
      fun o ho => ⟨o, ho, (hshape o ho).2⟩

/-- C19 (control-channel loss): a control receive event that carries an error
status, or that carries no buffer, tears the session down in any control
state.  It runs no processing step: its result is that of
`lwftp_control_close`.  Nothing is written, so no QUIT is sent; `tcp_close` is
issued on the data connection and then on the control connection, each only
when its handle is present; both handles end null and the control state
Closed; and the status of the event is returned unchanged. -/
theorem lwftp_control_recv_loss (E : Env) (s : lwftp_session_t) (tr : List Event)
    (tpcb : Option tcp_pcb) (p : Option pbuf) (err : err_t)
    (hloss : err ≠ err_t.ERR_OK ∨ p = none) :
    lwftp_control_recv E s tr tpcb p err =
      some (err, (lwftp_control_close E s tr).1, (lwftp_control_close E s tr).2) ∧
    ∃ ev, lwftp_control_recv E s tr tpcb p err =
        some (err,
          { s with data_pcb := none, control_pcb := none,
                   control_state := lwftp_state_t.LWFTP_CLOSED }, tr ++ ev) ∧
      (∀ h, written h ev = []) ∧ connects ev = [] ∧
      closes ev = (s.data_pcb.toList ++ s.control_pcb.toList).map some := by
  have hrecv : lwftp_control_recv E s tr tpcb p err =
      some (err, (lwftp_control_close E s tr).1, (lwftp_control_close E s tr).2) := by
    unfold lwftp_control_recv
    rcases hloss with he | hp
    · rw [if_neg he]
    · subst hp
      split_ifs <;> rfl
  obtain ⟨ev, hev, hcl, hw, hco, _⟩ := lwftp_control_close_log E s tr
  refine ⟨hrecv, ev, ?_, hw, hco, hcl⟩
  rw [hrecv, hev]

theorem lwftp_control_recv_loss_witness :
    ∃ ev, lwftp_control_recv quietEnv storingSession [] (some 0) none err_t.ERR_OK =
        some (err_t.ERR_OK, freshSession, [] ++ ev) ∧
      (∀ h, written h ev = []) ∧ connects ev = [] ∧
      closes ev = [some 1, some 0] :=
  (lwftp_control_recv_loss quietEnv storingSession [] (some 0) none err_t.ERR_OK
    (Or.inr rfl)).2

/-- On a reply whose first opening bracket starts a sextet of decimal fields,
each writing a number below 2^32, opening the data connection appends the
four registrations and the connect to the endpoint made of the low byte of
each field. -/
theorem lwftp_data_open_sextet_mod (E : Env) (s : lwftp_session_t) (tr : List Event)
    (pre fa fb fc fd fh fl post : List Char) (tot : Nat)
    (hpre : '(' ∉ pre)
    (hfa : decimal_field fa = true) (hfb : decimal_field fb = true)
    (hfc : decimal_field fc = true) (hfd : decimal_field fd = true)
    (hfh : decimal_field fh = true) (hfl : decimal_field fl = true)
    (ha : decimal_value fa ≤ ULONG_MAX) (hb : decimal_value fb ≤ ULONG_MAX)
    (hc : decimal_value fc ≤ ULONG_MAX) (hd : decimal_value fd ≤ ULONG_MAX)
    (hh : decimal_value fh ≤ ULONG_MAX) (hl : decimal_value fl ≤ ULONG_MAX) :
    ∃ res, lwftp_data_open E s tr ⟨pre ++ sextet fa fb fc fd fh fl ++ post, tot⟩ =
      (res, s, tr ++ data_open_calls s.data_pcb
        { addr1 := decimal_value fa % 256, addr2 := decimal_value fb % 256,
          addr3 := decimal_value fc % 256, addr4 := decimal_value fd % 256 }
        (decimal_value fh % 256 * 256 + decimal_value fl % 256) res) := by
  have hfields := pasv_fields_sextet fa fb fc fd fh fl (')' :: post) hfa hfb hfc hfd hfh
    hfl ha hb hc hd hh hl (close_bracket_not_digit post)
  have hchr : strchr (pre ++ sextet fa fb fc fd fh fl ++ post) '(' =
      some (sextet_fields fa fb fc fd fh fl ++ ')' :: post) := by
    have := strchr_append pre (fa ++ ',' :: (fb ++ ',' :: (fc ++ ',' :: (fd ++ ',' ::
      (fh ++ ',' :: fl)))) ++ ')' :: post) '(' hpre
    simpa [sextet, sextet_fields] using this
  have hparse : pasv_parse (pre ++ sextet fa fb fc fd fh fl ++ post) =
      Except.ok (ip_addr_t.mk (decimal_value fa % 256) (decimal_value fb % 256)
          (decimal_value fc % 256) (decimal_value fd % 256),
        decimal_value fh % 256 * 256 + decimal_value fl % 256) := by
    simp only [pasv_parse, hchr, hfields, pasv_port_eq, ip4_octet]
    simp
  refine ⟨E.tcp_connect (tr ++ [Event.tcp_arg s.data_pcb,
      Event.tcp_err s.data_pcb (some Callback.lwftp_data_err),
      Event.tcp_recv s.data_pcb (some Callback.lwftp_data_recv),
      Event.tcp_sent s.data_pcb (some Callback.lwftp_data_sent)]) s.data_pcb
      (ip_addr_t.mk (decimal_value fa % 256) (decimal_value fb % 256)
        (decimal_value fc % 256) (decimal_value fd % 256))
      (decimal_value fh % 256 * 256 + decimal_value fl % 256), ?_⟩
  simp only [lwftp_data_open, hparse, data_open_calls]
  simp

/-- C20 (modular truncation of PASV fields): for every sextet of decimal
fields whose values are below 2^32, not bounded by 255, `lwftp_data_open`
accepts the reply: it issues the connect and returns what the connect
answers, never a parse error of its own.  Each address octet is the field
value modulo 256 and the port is (h mod 256) * 256 + (l mod 256), which is
below 65536. -/
theorem lwftp_data_open_truncates (E : Env) (s : lwftp_session_t) (tr : List Event)
    (pre fa fb fc fd fh fl post : List Char) (tot : Nat)
    (hpre : '(' ∉ pre)
    (hfa : decimal_field fa = true) (hfb : decimal_field fb = true)
    (hfc : decimal_field fc = true) (hfd : decimal_field fd = true)
    (hfh : decimal_field fh = true) (hfl : decimal_field fl = true)
    (ha : decimal_value fa < 2 ^ 32) (hb : decimal_value fb < 2 ^ 32)
    (hc : decimal_value fc < 2 ^ 32) (hd : decimal_value fd < 2 ^ 32)
    (hh : decimal_value fh < 2 ^ 32) (hl : decimal_value fl < 2 ^ 32) :
    (∃ res, lwftp_data_open E s tr ⟨pre ++ sextet fa fb fc fd fh fl ++ post, tot⟩ =
      (res, s, tr ++ data_open_calls s.data_pcb
        { addr1 := decimal_value fa % 256, addr2 := decimal_value fb % 256,
          addr3 := decimal_value fc % 256, addr4 := decimal_value fd % 256 }
        (decimal_value fh % 256 * 256 + decimal_value fl % 256) res)) ∧
    decimal_value fh % 256 * 256 + decimal_value fl % 256 < 65536 ∧
    connects (lwftp_data_open E s tr
        ⟨pre ++ sextet fa fb fc fd fh fl ++ post, tot⟩).2.2 =
      connects tr ++ [(s.data_pcb,
        { addr1 := decimal_value fa % 256, addr2 := decimal_value fb % 256,
          addr3 := decimal_value fc % 256, addr4 := decimal_value fd % 256 },
        decimal_value fh % 256 * 256 + decimal_value fl % 256,
        Callback.lwftp_data_connected)] := by
  have hU : ∀ n, n < 2 ^ 32 → n ≤ ULONG_MAX := fun n hn => by
    simp only [ULONG_MAX]; omega
  obtain ⟨res, hres⟩ := lwftp_data_open_sextet_mod E s tr pre fa fb fc fd fh fl post tot
    hpre hfa hfb hfc hfd hfh hfl (hU _ ha) (hU _ hb) (hU _ hc) (hU _ hd) (hU _ hh) (hU _ hl)
  refine ⟨⟨res, hres⟩, by omega, ?_⟩
  rw [hres, connects_append]
  simp [data_open_calls, connects]

theorem lwftp_data_open_truncates_witness :
    ∃ res, lwftp_data_open quietEnv pasvSentSession []
        ⟨"227 passive ".toList ++
          sextet "266".toList "0".toList "0".toList "5".toList "456".toList
            "100".toList ++ [], 31⟩ =
      (res, pasvSentSession, [] ++ data_open_calls (some 1)
        { addr1 := 10, addr2 := 0, addr3 := 0, addr4 := 5 } 51300 res) :=
  (lwftp_data_open_truncates quietEnv pasvSentSession [] "227 passive ".toList
    "266".toList "0".toList "0".toList "5".toList "456".toList "100".toList [] 31
    (by decide) (by decide) (by decide) (by decide) (by decide) (by decide) (by decide)
    (by decide) (by decide) (by decide) (by decide) (by decide) (by decide)).1

end Lwftp
